import Mathlib

/-!
Verification development for the njtool resumable batch downloader
(the Downloader class and its Progress helper).

The downloader is shallowly embedded: the mutable object state (the
warning/error counters, the cooperative abort flag, the cursor files on
disk, the saved artifacts and the log output) becomes an explicit record
`DLState` threaded through pure functions, one per source method.  The
external collaborators (the browser session, the page, the remote site)
become an `Env` record of oracles:

* JS exceptions are modelled with `Except String`, carrying the message.
* JS numbers that hold article indices are modelled as `Int`; the result
  of `parseInt` is modelled as `Option Int`, `none` standing for `NaN`
  (the one non-integer value the cursor-reading path can produce).
  `parseIntJs` models radix-10 `parseInt`: skip leading whitespace, an
  optional sign, then the longest leading digit run; no digits gives NaN.
  (The legacy octal/hex prefix quirk of `parseInt` is not modelled; the
  cursor files at issue contain decimal text.)
* The filesystem is an association list from paths to file contents; the
  only files the core logic reads are the per-journal cursor files, and
  saved PDFs are recorded separately in `files`.
* Every log call and every effect is also recorded in an event trace;
  the trace mirrors the observable behaviour (log lines without their
  timestamp/colour decoration, sleeps, cursor writes/removals, attempt
  starts, file saves, abort-flag polls, the browser teardown).
* The abort flag can be set asynchronously by a signal handler; the code
  reads it only at the top of the per-article loop.  The k-th read of the
  flag returns `env.abortAt k`; a real abort corresponds to a monotone
  schedule (false up to some point, true afterwards).
* A failing attempt stage (navigation / extraction / fetch / save) is
  collapsed into the single oracle answer `AttemptSpec.fail msg`; the
  model raises it at the navigation step.  `AttemptSpec.ok url` means all
  stages succeeded, `AttemptSpec.noPdf` means the page had no artifact
  link.  `browser.newPage` is modelled as always succeeding; launch,
  login and logout can each fail with a message.
-/

/-- Log/effect events, in program order.  Log events carry the message as
passed to the logger minus the timestamp prefix and colouring, which are
environmental. -/
inductive Event where
  | info (msg : String)
  | warn (msg : String)
  | error (msg : String)
  | sleepEv (secs : Nat)
  | cursorWrite (dir : String) (i : Int)
  | cursorRemove (dir : String)
  | attemptStart (dir : String) (artIdx : Int) (trial : Nat)
  | fileSave (path : String)
  | abortPoll (observed : Bool)
  | closeBrowser
deriving DecidableEq, Repr

/-- Progress indicator data: `new Progress(count, total, trial, maxTrial)`.
All four fields are JS numbers. -/
structure Progress where
  count : Int
  total : Int
  trial : Int
  maxTrial : Int
deriving DecidableEq, Repr

/-- JS `s.substr(-2)`: the last two characters (the whole string when it is
shorter than two characters). -/
def substrLast2 (s : String) : String :=
  (s.toList.drop (s.toList.length - 2)).asString

/-- Source `Progress.indicator`:
`[` ${count}`.substr(-2), ` ${total}`.substr(-2)].join('/') + ': ' + trial/maxTrial`. -/
def Progress.indicator (p : Progress) : String :=
  substrLast2 (" " ++ Int.repr p.count) ++ "/" ++ substrLast2 (" " ++ Int.repr p.total)
    ++ ": " ++ Int.repr p.trial ++ "/" ++ Int.repr p.maxTrial

/-- Downloader options (the fields the core control flow reads).
Intervals are modelled as whole seconds. -/
structure Options where
  retry : Nat
  retryInterval : Nat
  sleep : Nat
  outdir : String

/-- An article of a journal: a title and a source url. -/
structure Article where
  title : String
  url : String
deriving DecidableEq, Repr

/-- A journal: identity fields (rendered into the output directory name)
plus the ordered article list. -/
structure Journal where
  name : String
  date : String
  volume : String
  issue : String
  articles : List Article

/-- Outcome of one attempt of the fetch-and-save operation, as dictated by
the environment (the page / remote site). -/
inductive AttemptSpec where
  | ok (pdfUrl : String)
  | noPdf
  | fail (msg : String)
deriving DecidableEq, Repr

/-- The external collaborators: launch/login/logout can fail with a
message; `attempt j i t` is the behaviour of trial `t` (0-based) of
article index `i` of the `j`-th journal; `abortAt k` is the value of the
abort flag at its k-th read; `sanitize` is the sanitize-filename
collaborator. -/
structure Env where
  launchError : Option String
  loginError : Option String
  logoutError : Option String
  sanitize : String → String
  attempt : Nat → Int → Nat → AttemptSpec
  abortAt : Nat → Bool

/-- The explicit downloader state: counters, abort-flag read counter,
cursor-file filesystem, saved artifact paths, event trace. -/
@[ext]
structure DLState where
  warnCount : Nat
  errorCount : Nat
  polls : Nat
  fs : List (String × String)
  files : List String
  trace : List Event
deriving DecidableEq, Repr

/-- Fresh run state over an initial filesystem (the constructor zeroes the
counters and the abort flag has not been read). -/
def DLState.init (fs0 : List (String × String)) : DLState :=
  ⟨0, 0, 0, fs0, [], []⟩

/-- Association-list lookup for the modelled filesystem. -/
def fsLookup : List (String × String) → String → Option String
  | [], _ => none
  | (k, v) :: rest, key => if k = key then some v else fsLookup rest key

/-- Association-list overwrite (writeFileSync). -/
def fsWrite : List (String × String) → String → String → List (String × String)
  | [], key, v => [(key, v)]
  | (k, w) :: rest, key, v =>
    if k = key then (key, v) :: rest else (k, w) :: fsWrite rest key v

/-- Association-list delete (unlinkSync, on a present file). -/
def fsErase : List (String × String) → String → List (String × String)
  | [], _ => []
  | (k, w) :: rest, key =>
    if k = key then fsErase rest key else (k, w) :: fsErase rest key

/-- Message formatting of `info_`/`warn_`/`error_`: an optional Progress
indicator prefix. -/
def fmtMsg (prog : Option Progress) (msg : String) : String :=
  match prog with
  | none => msg
  | some p => p.indicator ++ ": " ++ msg

/-- Source `info_`: log only, counters untouched. -/
def logInfo (st : DLState) (msg : String) (prog : Option Progress) : DLState :=
  { st with trace := st.trace ++ [Event.info (fmtMsg prog msg)] }

/-- Source `warn_`: log and increment the warning counter. -/
def logWarn (st : DLState) (msg : String) (prog : Option Progress) : DLState :=
  { st with trace := st.trace ++ [Event.warn (fmtMsg prog msg)],
            warnCount := st.warnCount + 1 }

/-- Source `error_`: log and increment the error counter. -/
def logError (st : DLState) (msg : String) (prog : Option Progress) : DLState :=
  { st with trace := st.trace ++ [Event.error (fmtMsg prog msg)],
            errorCount := st.errorCount + 1 }

/-- Whitespace characters skipped by `parseInt`. -/
def isJsSpace (c : Char) : Bool :=
  c = ' ' || c = '\t' || c = '\n' || c = '\r'

/-- Numeric value of a decimal digit character. -/
def digitVal (c : Char) : Nat := c.toNat - 48

/-- Longest leading run of decimal digits, `none` when there is none. -/
def parseNatDigits (cs : List Char) : Option Nat :=
  let ds := cs.takeWhile Char.isDigit
  if ds.isEmpty then none
  else some (ds.foldl (fun a c => 10 * a + digitVal c) 0)

/-- Model of radix-10 `parseInt`; `none` is `NaN`. -/
def parseIntJs (s : String) : Option Int :=
  let cs := s.toList.dropWhile isJsSpace
  match cs with
  | [] => none
  | c :: rest =>
    if c = '-' then (parseNatDigits rest).map (fun n => -(n : Int))
    else if c = '+' then (parseNatDigits rest).map (fun n => (n : Int))
    else (parseNatDigits cs).map (fun n => (n : Int))

/-- Source `getCursorPath_`: `path.join(dir, 'cursor')`. -/
def getCursorPath (dir : String) : String := dir ++ "/cursor"

/-- Source `readCursor_`: 0 when the cursor file is absent, otherwise
`parseInt` of its contents (which is `NaN`, modelled `none`, when the
contents do not start with an integer). -/
def readCursor (fs : List (String × String)) (dir : String) : Option Int :=
  match fsLookup fs (getCursorPath dir) with
  | none => some 0
  | some content => parseIntJs content

/-- Source `writeCursor_`: `fs.writeFileSync(cursorPath, String(id))`. -/
def writeCursor (st : DLState) (dir : String) (i : Int) : DLState :=
  { st with fs := fsWrite st.fs (getCursorPath dir) (Int.repr i),
            trace := st.trace ++ [Event.cursorWrite dir i] }

/-- Source `removeCursor_`: `fs.unlinkSync(cursorPath)`; unlinking a
nonexistent file throws ENOENT. -/
def removeCursor (st : DLState) (dir : String) : DLState × Except String Unit :=
  match fsLookup st.fs (getCursorPath dir) with
  | some _ =>
    ({ st with fs := fsErase st.fs (getCursorPath dir),
               trace := st.trace ++ [Event.cursorRemove dir] }, Except.ok ())
  | none =>
    (st, Except.error ("ENOENT: no such file or directory, unlink "
      ++ getCursorPath dir))

/-- JS zero-padding used for the artifact filename: `(`0` + n).substr(-2)`. -/
def jsPad2Zero (n : Int) : String := substrLast2 ("0" ++ Int.repr n)

/-- Source `downloadArticle_`.  `article` is `none` when the loop indexed
outside the array (the `undefined` element: touching `article.url` then
throws before anything is logged).  `outcome` is the environment's answer
for this attempt; a failing stage is modelled as throwing at navigation. -/
def downloadArticle (env : Env) (opts : Options) (outcome : AttemptSpec)
    (article : Option Article) (dir : String) (prog : Progress) (st : DLState) :
    DLState × Except String Unit :=
  match article with
  | none =>
    (st, Except.error "Cannot read properties of undefined (reading url)")
  | some a =>
    let st := logInfo st ("Loading " ++ a.url ++ "...") (some prog)
    match outcome with
    | AttemptSpec.fail msg => (st, Except.error msg)
    | AttemptSpec.noPdf =>
      let st := logInfo st "Looking for a PDF file..." (some prog)
      (logWarn st "No PDF file found" (some prog), Except.ok ())
    | AttemptSpec.ok pdfUrl =>
      let st := logInfo st "Looking for a PDF file..." (some prog)
      let pdfFile := jsPad2Zero prog.count ++ " " ++ (env.sanitize a.title).trim ++ ".pdf"
      let pdfPath := dir ++ "/" ++ pdfFile
      let st := logInfo st ("Fetching " ++ pdfUrl ++ "...") (some prog)
      let st := logInfo st ("Saving as " ++ pdfFile ++ "...") (some prog)
      let st := { st with files := st.files ++ [pdfPath],
                          trace := st.trace ++ [Event.fileSave pdfPath] }
      if 0 < opts.sleep then
        let st := logInfo st ("Sleep " ++ Nat.repr opts.sleep ++ "s...") (some prog)
        ({ st with trace := st.trace ++ [Event.sleepEv opts.sleep] }, Except.ok ())
      else (st, Except.ok ())

/-- The `for (let trial = 0; trial < maxTrial; ++trial)` loop of source
`downloadArticleWithRetry_`, as structural recursion on the number of
remaining trials.  An `attemptStart` trace event marks each invocation of
`downloadArticle_` (its `trial` field is 1-based, like the indicator). -/
def retryLoop (env : Env) (opts : Options) (jIdx : Nat) (artIdx : Int)
    (article : Option Article) (dir : String) (count total : Int) (maxTrial : Nat) :
    Nat → Nat → DLState → DLState
  | _, 0, st => st
  | trial, Nat.succ rem, st =>
    let prog : Progress := ⟨count, total, (trial : Int) + 1, (maxTrial : Int)⟩
    let st := { st with trace := st.trace ++ [Event.attemptStart dir artIdx (trial + 1)] }
    match downloadArticle env opts (env.attempt jIdx artIdx trial) article dir prog st with
    | (st, Except.ok _) => st
    | (st, Except.error msg) =>
      if trial < opts.retry then
        if 0 < opts.retryInterval then
          let st := logWarn st ("Retry after " ++ Nat.repr opts.retryInterval
            ++ "s: " ++ msg) (some prog)
          let st := { st with trace := st.trace ++ [Event.sleepEv opts.retryInterval] }
          retryLoop env opts jIdx artIdx article dir count total maxTrial (trial + 1) rem st
        else
          let st := logWarn st ("Retry: " ++ msg) (some prog)
          retryLoop env opts jIdx artIdx article dir count total maxTrial (trial + 1) rem st
      else
        let st := logError st ("Failed: " ++ msg) (some prog)
        retryLoop env opts jIdx artIdx article dir count total maxTrial (trial + 1) rem st

/-- Source `downloadArticleWithRetry_`: `maxTrial = 1 + this.options_.retry`
trials starting at trial 0.  It catches every attempt failure itself, so it
returns plain state: no exception escapes it. -/
def downloadArticleWithRetry (env : Env) (opts : Options) (jIdx : Nat) (artIdx : Int)
    (article : Option Article) (dir : String) (count total : Int) (st : DLState) : DLState :=
  retryLoop env opts jIdx artIdx article dir count total (1 + opts.retry) 0 (1 + opts.retry) st

/-- One read of the abort flag (`this.aborted_`). -/
def pollAborted (env : Env) (st : DLState) : Bool × DLState :=
  (env.abortAt st.polls,
    { st with
      polls := st.polls + 1
      trace := st.trace ++ [Event.abortPoll (env.abortAt st.polls)] })

/-- JS array indexing `articles[i]`: `undefined` outside the bounds. -/
def articleAt (articles : List Article) (i : Int) : Option Article :=
  if 0 ≤ i then articles[i.toNat]? else none

/-- The `for (let i = cursor; i < total; ++i)` loop of source
`downloadJournal_`, as structural recursion on the number of remaining
iterations (`(total - cursor).toNat`).  Each iteration writes the cursor,
polls the abort flag (throwing `Aborted` when it is set), then runs the
per-article retry wrapper. -/
def journalLoop (env : Env) (opts : Options) (jIdx : Nat) (articles : List Article)
    (dir : String) (total : Nat) : Int → Nat → DLState → DLState × Except String Unit
  | _, 0, st => (st, Except.ok ())
  | i, Nat.succ rem, st =>
    let st := writeCursor st dir i
    let (ab, st) := pollAborted env st
    if ab then (st, Except.error "Aborted")
    else
      let st := downloadArticleWithRetry env opts jIdx i (articleAt articles i)
        dir (i + 1) (total : Int) st
      journalLoop env opts jIdx articles dir total (i + 1) rem st

/-- Output directory of a journal:
`path.join(outdir, journal.name, date_volume_issue)`. -/
def journalDir (opts : Options) (j : Journal) : String :=
  opts.outdir ++ "/" ++ j.name ++ "/" ++ j.date ++ "_" ++ j.volume ++ "_" ++ j.issue

/-- Source `downloadJournal_`: mkdir (logged; modelled as always
succeeding), read the cursor, run the article loop, then remove the
cursor file.  A `NaN` cursor makes `i < total` false immediately, so the
loop body never runs. -/
def downloadJournal (env : Env) (opts : Options) (jIdx : Nat) (j : Journal)
    (st : DLState) : DLState × Except String Unit :=
  let dir := journalDir opts j
  let st := logInfo st ("mkdir -p " ++ dir ++ "...") none
  let total := j.articles.length
  match readCursor st.fs dir with
  | none => removeCursor st dir
  | some c =>
    match journalLoop env opts jIdx j.articles dir total c (((total : Int) - c).toNat) st with
    | (st, Except.ok _) => removeCursor st dir
    | (st, Except.error e) => (st, Except.error e)

/-- The `for (let journal of journals)` loop inside source
`downloadJournals_`; the first journal-level exception stops it. -/
def downloadJournalsLoop (env : Env) (opts : Options) :
    Nat → List Journal → DLState → DLState × Except String Unit
  | _, [], st => (st, Except.ok ())
  | jIdx, j :: rest, st =>
    match downloadJournal env opts jIdx j st with
    | (st, Except.ok _) => downloadJournalsLoop env opts (jIdx + 1) rest st
    | (st, Except.error e) => (st, Except.error e)

/-- Source `downloadJournals_`: the journal loop with its catch-all that
records the exception message as an error. -/
def downloadJournals (env : Env) (opts : Options) (journals : List Journal)
    (st : DLState) : DLState :=
  match downloadJournalsLoop env opts 0 journals st with
  | (st, Except.ok _) => st
  | (st, Except.error e) => logError st e none

/-- The final `Done: warns(w) errors(e)` info line of source `download`. -/
def doneMsg (st : DLState) : String :=
  "Done: warns(" ++ Nat.repr st.warnCount ++ ") errors(" ++ Nat.repr st.errorCount ++ ")"

/-- Source `download`: launch the browser (on failure the catch records the
error and `browser` stays null, so there is no close), log in, process the
journals, log out; any exception out of this sequence is caught and
recorded as an error; then close the browser when it was launched, log the
summary line and return `errorCount > 0 ? 1 : 0`. -/
def download (env : Env) (opts : Options) (journals : List Journal)
    (fs0 : List (String × String)) : DLState × Nat :=
  let st := DLState.init fs0
  match env.launchError with
  | some msg =>
    let st := logError st msg none
    let st := logInfo st (doneMsg st) none
    (st, if 0 < st.errorCount then 1 else 0)
  | none =>
    let st := logInfo st "Trying to login to www.nature.com..." none
    let stepped : DLState × Except String Unit :=
      match env.loginError with
      | some msg => (st, Except.error msg)
      | none =>
        let st := downloadJournals env opts journals st
        let st := logInfo st "Logging out from www.nature.com..." none
        match env.logoutError with
        | some msg => (st, Except.error msg)
        | none => (st, Except.ok ())
    let st := match stepped with
      | (st, Except.ok _) => st
      | (st, Except.error msg) => logError st msg none
    let st := { st with trace := st.trace ++ [Event.closeBrowser] }
    let st := logInfo st (doneMsg st) none
    (st, if 0 < st.errorCount then 1 else 0)

/-! ### Trace observation helpers -/

/-- Boolean recognizer for warning events. -/
def eventIsWarn : Event → Bool
  | Event.warn _ => true
  | _ => false

/-- Boolean recognizer for error events. -/
def eventIsError : Event → Bool
  | Event.error _ => true
  | _ => false

/-- Boolean recognizer for sleep events. -/
def eventIsSleep : Event → Bool
  | Event.sleepEv _ => true
  | _ => false

/-- Boolean recognizer for attempt-start events. -/
def eventIsAttempt : Event → Bool
  | Event.attemptStart _ _ _ => true
  | _ => false

/-- Boolean recognizer for the browser-teardown event. -/
def eventIsClose : Event → Bool
  | Event.closeBrowser => true
  | _ => false

/-- Number of warning events in a trace. -/
def countWarns (tr : List Event) : Nat := (tr.filter eventIsWarn).length

/-- Number of error events in a trace. -/
def countErrors (tr : List Event) : Nat := (tr.filter eventIsError).length

/-- Number of sleep events in a trace. -/
def countSleeps (tr : List Event) : Nat := (tr.filter eventIsSleep).length

/-- Number of attempt-start events in a trace. -/
def countAttempts (tr : List Event) : Nat := (tr.filter eventIsAttempt).length

/-- Number of browser-teardown events in a trace. -/
def countCloses (tr : List Event) : Nat := (tr.filter eventIsClose).length

/-- The messages of the warning events of a trace, in order. -/
def warnMsgs (tr : List Event) : List String :=
  tr.filterMap (fun e => match e with | Event.warn s => some s | _ => none)

/-- The paths of the file-save events of a trace, in order. -/
def savedPaths (tr : List Event) : List String :=
  tr.filterMap (fun e => match e with | Event.fileSave p => some p | _ => none)

/-- The article indices of the attempt-start events of a trace, in order. -/
def attemptIdxs (tr : List Event) : List Int :=
  tr.filterMap (fun e => match e with | Event.attemptStart _ i _ => some i | _ => none)

/-! ### Framing: every phase appends to the trace and accumulates counters,
independently of the state it starts from.  `mergeSt st d` applies the
run-from-scratch outcome `d` on top of `st`. -/

/-- Apply a run-from-scratch state delta on top of a base state (the
fetch-and-save phases never touch the cursor filesystem). -/
def mergeSt (st d : DLState) : DLState :=
  ⟨st.warnCount + d.warnCount, st.errorCount + d.errorCount, st.polls + d.polls,
   st.fs, st.files ++ d.files, st.trace ++ d.trace⟩

/-- Outcome of one `downloadArticle_` call from a fresh state. -/
def articleRun (env : Env) (opts : Options) (outcome : AttemptSpec)
    (article : Option Article) (dir : String) (prog : Progress) :
    DLState × Except String Unit :=
  downloadArticle env opts outcome article dir prog (DLState.init [])

/-- Outcome of the retry loop from a fresh state. -/
def retryRunAt (env : Env) (opts : Options) (jIdx : Nat) (artIdx : Int)
    (article : Option Article) (dir : String) (count total : Int) (maxTrial : Nat)
    (trial rem : Nat) : DLState :=
  retryLoop env opts jIdx artIdx article dir count total maxTrial trial rem (DLState.init [])

/-- Events the fetch-and-save phase itself can emit (loggings, sleeps and
file saves; never checkpoint operations, abort polls, attempt markers or
the browser teardown). -/
def eventBenign : Event → Bool
  | Event.info _ => true
  | Event.warn _ => true
  | Event.error _ => true
  | Event.sleepEv _ => true
  | Event.fileSave _ => true
  | _ => false

/-- Events the per-article retry wrapper for `(dir, artIdx)` can emit. -/
def retryEventOk (dir : String) (artIdx : Int) (e : Event) : Bool :=
  match e with
  | Event.attemptStart d i _ => d = dir && i = artIdx
  | _ => eventBenign e

/-- Events the per-journal article loop for `dir` can emit. -/
def jlEventOk (dir : String) (e : Event) : Bool :=
  match e with
  | Event.attemptStart d _ _ => d = dir
  | Event.cursorWrite d _ => d = dir
  | Event.abortPoll _ => true
  | _ => eventBenign e


/-- Outcome of one whole `downloadArticleWithRetry_` call from a fresh
state. -/
def retryRun (env : Env) (opts : Options) (jIdx : Nat) (artIdx : Int)
    (article : Option Article) (dir : String) (count total : Int) : DLState :=
  retryRunAt env opts jIdx artIdx article dir count total (1 + opts.retry) 0 (1 + opts.retry)

/-- Trace delta of the retry wrapper for one article. -/
def retryDelta (env : Env) (opts : Options) (jIdx : Nat) (artIdx : Int)
    (article : Option Article) (dir : String) (count total : Int) : List Event :=
  (retryRun env opts jIdx artIdx article dir count total).trace

/-- Predicted trace of an abort-free run of the per-journal article loop
starting at index `i` with `rem` iterations left: per iteration, the
checkpoint write, the (negative) abort poll, then the whole retry-wrapper
block of that article. -/
def jlBlocks (env : Env) (opts : Options) (jIdx : Nat) (articles : List Article)
    (dir : String) (total : Nat) : Int → Nat → List Event
  | _, 0 => []
  | i, Nat.succ rem =>
    Event.cursorWrite dir i :: Event.abortPoll false ::
      (retryDelta env opts jIdx i (articleAt articles i) dir (i + 1) (total : Int)
        ++ jlBlocks env opts jIdx articles dir total (i + 1) rem)

/-! ### Decimal digit strings: `Nat.repr` in terms of an explicit digit
list, the `parseIntJs` round trip, and length bounds. -/

/-- Decimal digits of a number, most significant first (the list behind
`Nat.repr`). -/
def natDigits (n : Nat) : List Char :=
  if n < 10 then [Nat.digitChar n]
  else natDigits (n / 10) ++ [Nat.digitChar (n % 10)]
decreasing_by exact Nat.div_lt_self (by omega) (by norm_num)

/-- Space padding of the item indicator as the spec describes it for values
below 100: a single leading space for one-digit values, the full decimal
text otherwise. -/
def spacePad2 (n : Nat) : String :=
  if n < 10 then " " ++ Nat.repr n else Nat.repr n

/-- Predicted trace of the retry loop when every attempt throws, `m t`
being the failure message of trial `t` (0-based). -/
def failTrace (opts : Options) (a : Article) (dir : String) (artIdx : Int)
    (count total : Int) (maxTrial : Nat) (m : Nat → String) : Nat → Nat → List Event
  | _, 0 => []
  | trial, Nat.succ rem =>
    Event.attemptStart dir artIdx (trial + 1) ::
    Event.info ((Progress.indicator ⟨count, total, (trial : Int) + 1, (maxTrial : Int)⟩)
      ++ ": " ++ ("Loading " ++ a.url ++ "...")) ::
    ((if trial < opts.retry then
        (if 0 < opts.retryInterval then
          [Event.warn ((Progress.indicator ⟨count, total, (trial : Int) + 1, (maxTrial : Int)⟩)
              ++ ": " ++ ("Retry after " ++ Nat.repr opts.retryInterval ++ "s: " ++ m trial)),
           Event.sleepEv opts.retryInterval]
        else
          [Event.warn ((Progress.indicator ⟨count, total, (trial : Int) + 1, (maxTrial : Int)⟩)
              ++ ": " ++ ("Retry: " ++ m trial))])
      else
        [Event.error ((Progress.indicator ⟨count, total, (trial : Int) + 1, (maxTrial : Int)⟩)
            ++ ": " ++ ("Failed: " ++ m trial))])
      ++ failTrace opts a dir artIdx count total maxTrial m (trial + 1) rem)

theorem countWarns_append (a b : List Event) :
    countWarns (a ++ b) = countWarns a + countWarns b := by
  simp [countWarns, List.filter_append]

theorem countErrors_append (a b : List Event) :
    countErrors (a ++ b) = countErrors a + countErrors b := by
  simp [countErrors, List.filter_append]

theorem countSleeps_append (a b : List Event) :
    countSleeps (a ++ b) = countSleeps a + countSleeps b := by
  simp [countSleeps, List.filter_append]

theorem countAttempts_append (a b : List Event) :
    countAttempts (a ++ b) = countAttempts a + countAttempts b := by
  simp [countAttempts, List.filter_append]

theorem countCloses_append (a b : List Event) :
    countCloses (a ++ b) = countCloses a + countCloses b := by
  simp [countCloses, List.filter_append]

theorem warnMsgs_append (a b : List Event) :
    warnMsgs (a ++ b) = warnMsgs a ++ warnMsgs b := by
  simp [warnMsgs, List.filterMap_append]

theorem attemptIdxs_append (a b : List Event) :
    attemptIdxs (a ++ b) = attemptIdxs a ++ attemptIdxs b := by
  simp [attemptIdxs, List.filterMap_append]

theorem savedPaths_append (a b : List Event) :
    savedPaths (a ++ b) = savedPaths a ++ savedPaths b := by
  simp [savedPaths, List.filterMap_append]

/-! ### Filesystem lemmas -/

theorem fsLookup_fsWrite (fs : List (String × String)) (k v : String) :
    fsLookup (fsWrite fs k v) k = some v := by
  induction fs with
  | nil => simp [fsWrite, fsLookup]
  | cons hd tl ih =>
    obtain ⟨k0, v0⟩ := hd
    by_cases h : k0 = k <;> simp [fsWrite, fsLookup, h, ih]

theorem fsWrite_fsWrite (fs : List (String × String)) (k v w : String) :
    fsWrite (fsWrite fs k v) k w = fsWrite fs k w := by
  induction fs with
  | nil => simp [fsWrite]
  | cons hd tl ih =>
    obtain ⟨k0, v0⟩ := hd
    by_cases h : k0 = k <;> simp [fsWrite, h, ih]

theorem fsLookup_fsErase (fs : List (String × String)) (k : String) :
    fsLookup (fsErase fs k) k = none := by
  induction fs with
  | nil => simp [fsErase, fsLookup]
  | cons hd tl ih =>
    obtain ⟨k0, v0⟩ := hd
    by_cases h : k0 = k <;> simp [fsErase, fsLookup, h, ih]

theorem downloadArticle_frame (env : Env) (opts : Options) (outcome : AttemptSpec)
    (article : Option Article) (dir : String) (prog : Progress) (st : DLState) :
    downloadArticle env opts outcome article dir prog st =
      (mergeSt st (articleRun env opts outcome article dir prog).1,
       (articleRun env opts outcome article dir prog).2) := by
  cases article with
  | none => simp [downloadArticle, articleRun, mergeSt, DLState.init]
  | some a =>
    cases outcome <;>
      simp [downloadArticle, articleRun, mergeSt, DLState.init,
        logInfo, logWarn, logError] <;>
      split <;> simp

theorem retryLoop_frame (env : Env) (opts : Options) (jIdx : Nat) (artIdx : Int)
    (article : Option Article) (dir : String) (count total : Int) (maxTrial : Nat) :
    ∀ (rem trial : Nat) (st : DLState),
    retryLoop env opts jIdx artIdx article dir count total maxTrial trial rem st =
      mergeSt st (retryRunAt env opts jIdx artIdx article dir count total maxTrial trial rem) := by
  intro rem
  induction rem with
  | zero =>
    intro trial st
    simp [retryLoop, retryRunAt, mergeSt, DLState.init]
  | succ rem ih =>
    intro trial st
    simp only [retryRunAt, retryLoop]
    rw [downloadArticle_frame, downloadArticle_frame]
    rcases hzc : (articleRun env opts (env.attempt jIdx artIdx trial) article dir
        ⟨count, total, (trial : Int) + 1, (maxTrial : Int)⟩).2 with m | u
    case ok => simp [mergeSt, DLState.init]
    case error =>
      by_cases htr : trial < opts.retry
      · by_cases hint : 0 < opts.retryInterval
        · simp only [htr, hint, if_true]
          rw [ih, ih]
          simp [mergeSt, DLState.init, logWarn, List.append_assoc, Nat.add_assoc]
        · simp only [htr, hint, if_true, if_false]
          rw [ih, ih]
          simp [mergeSt, DLState.init, logWarn, List.append_assoc, Nat.add_assoc]
      · simp only [htr, if_false]
        rw [ih, ih]
        simp [mergeSt, DLState.init, logError, List.append_assoc, Nat.add_assoc]

theorem benign_retryOk (dir : String) (artIdx : Int) (e : Event)
    (h : eventBenign e = true) : retryEventOk dir artIdx e = true := by
  cases e <;> simp_all [eventBenign, retryEventOk]

theorem retryOk_jlOk (dir : String) (artIdx : Int) (e : Event)
    (h : retryEventOk dir artIdx e = true) : jlEventOk dir e = true := by
  cases e <;> simp_all [eventBenign, retryEventOk, jlEventOk]

theorem articleRun_events (env : Env) (opts : Options) (outcome : AttemptSpec)
    (article : Option Article) (dir : String) (prog : Progress) :
    ∀ e ∈ (articleRun env opts outcome article dir prog).1.trace, eventBenign e = true := by
  intro e he
  cases article with
  | none => simp [articleRun, downloadArticle, DLState.init] at he
  | some a =>
    cases outcome with
    | fail m =>
      simp [articleRun, downloadArticle, DLState.init, logInfo] at he
      simp [he, eventBenign]
    | noPdf =>
      simp [articleRun, downloadArticle, DLState.init, logInfo, logWarn] at he
      rcases he with h | h | h <;> simp [h, eventBenign]
    | ok pdfUrl =>
      by_cases hs : 0 < opts.sleep <;>
        simp [articleRun, downloadArticle, DLState.init, logInfo, hs] at he
      · rcases he with h | h | h | h | h | h | h <;> simp [h, eventBenign]
      · rcases he with h | h | h | h | h <;> simp [h, eventBenign]

theorem retryRunAt_events (env : Env) (opts : Options) (jIdx : Nat) (artIdx : Int)
    (article : Option Article) (dir : String) (count total : Int) (maxTrial : Nat) :
    ∀ (rem trial : Nat) (e : Event),
    e ∈ (retryRunAt env opts jIdx artIdx article dir count total maxTrial trial rem).trace →
    retryEventOk dir artIdx e = true := by
  intro rem
  induction rem with
  | zero =>
    intro trial e h
    simp [retryRunAt, retryLoop, DLState.init] at h
  | succ rem ih =>
    intro trial e h
    simp only [retryRunAt, retryLoop] at h
    rw [downloadArticle_frame] at h
    rcases hzc : (articleRun env opts (env.attempt jIdx artIdx trial) article dir
        ⟨count, total, (trial : Int) + 1, (maxTrial : Int)⟩).2 with m | u
    case ok =>
      rw [hzc] at h
      simp only [mergeSt, DLState.init, List.nil_append, List.mem_append,
        List.mem_singleton] at h
      rcases h with h | h
      · subst h
        simp [retryEventOk]
      · exact benign_retryOk dir artIdx e
          (articleRun_events env opts (env.attempt jIdx artIdx trial) article dir _ e h)
    case error =>
      rw [hzc] at h
      by_cases htr : trial < opts.retry
      · by_cases hint : 0 < opts.retryInterval
        · simp only [htr, hint, if_true] at h
          rw [retryLoop_frame] at h
          simp only [mergeSt, logWarn, DLState.init, List.nil_append, List.append_assoc,
            List.mem_append, List.mem_singleton] at h
          rcases h with h | h | h | h | h
          · subst h
            simp [retryEventOk]
          · exact benign_retryOk dir artIdx e
              (articleRun_events env opts (env.attempt jIdx artIdx trial) article dir _ e h)
          · subst h
            simp [retryEventOk, eventBenign]
          · subst h
            simp [retryEventOk, eventBenign]
          · exact ih (trial + 1) e h
        · simp only [htr, hint, if_true, if_false] at h
          rw [retryLoop_frame] at h
          simp only [mergeSt, logWarn, DLState.init, List.nil_append, List.append_assoc,
            List.mem_append, List.mem_singleton] at h
          rcases h with h | h | h | h
          · subst h
            simp [retryEventOk]
          · exact benign_retryOk dir artIdx e
              (articleRun_events env opts (env.attempt jIdx artIdx trial) article dir _ e h)
          · subst h
            simp [retryEventOk, eventBenign]
          · exact ih (trial + 1) e h
      · simp only [htr, if_false] at h
        rw [retryLoop_frame] at h
        simp only [mergeSt, logError, DLState.init, List.nil_append, List.append_assoc,
          List.mem_append, List.mem_singleton] at h
        rcases h with h | h | h | h
        · subst h
          simp [retryEventOk]
        · exact benign_retryOk dir artIdx e
            (articleRun_events env opts (env.attempt jIdx artIdx trial) article dir _ e h)
        · subst h
          simp [retryEventOk, eventBenign]
        · exact ih (trial + 1) e h

theorem downloadArticleWithRetry_frame (env : Env) (opts : Options) (jIdx : Nat)
    (artIdx : Int) (article : Option Article) (dir : String) (count total : Int)
    (st : DLState) :
    downloadArticleWithRetry env opts jIdx artIdx article dir count total st =
      mergeSt st (retryRun env opts jIdx artIdx article dir count total) := by
  simp [downloadArticleWithRetry, retryRun, retryLoop_frame]

theorem articleRun_counts (env : Env) (opts : Options) (outcome : AttemptSpec)
    (article : Option Article) (dir : String) (prog : Progress) :
    (articleRun env opts outcome article dir prog).1.warnCount =
      countWarns (articleRun env opts outcome article dir prog).1.trace ∧
    (articleRun env opts outcome article dir prog).1.errorCount =
      countErrors (articleRun env opts outcome article dir prog).1.trace ∧
    (articleRun env opts outcome article dir prog).1.files =
      savedPaths (articleRun env opts outcome article dir prog).1.trace ∧
    (articleRun env opts outcome article dir prog).1.polls = 0 ∧
    (articleRun env opts outcome article dir prog).1.fs = [] := by
  cases article with
  | none =>
    simp [articleRun, downloadArticle, DLState.init, countWarns, countErrors, savedPaths]
  | some a =>
    cases outcome with
    | fail m =>
      simp [articleRun, downloadArticle, DLState.init, logInfo, countWarns, countErrors,
        savedPaths, List.filter, List.filterMap, eventIsWarn, eventIsError]
    | noPdf =>
      simp [articleRun, downloadArticle, DLState.init, logInfo, logWarn, countWarns,
        countErrors, savedPaths, List.filter, List.filterMap, eventIsWarn, eventIsError]
    | ok pdfUrl =>
      by_cases hs : 0 < opts.sleep <;>
        simp [articleRun, downloadArticle, DLState.init, logInfo, hs, countWarns,
          countErrors, savedPaths, List.filter, List.filterMap, eventIsWarn, eventIsError]

theorem countWarns_cons (e : Event) (l : List Event) :
    countWarns (e :: l) = (if eventIsWarn e = true then 1 else 0) + countWarns l := by
  by_cases h : eventIsWarn e = true <;> simp [countWarns, List.filter, h] <;> omega

theorem countErrors_cons (e : Event) (l : List Event) :
    countErrors (e :: l) = (if eventIsError e = true then 1 else 0) + countErrors l := by
  by_cases h : eventIsError e = true <;> simp [countErrors, List.filter, h] <;> omega

theorem countSleeps_cons (e : Event) (l : List Event) :
    countSleeps (e :: l) = (if eventIsSleep e = true then 1 else 0) + countSleeps l := by
  by_cases h : eventIsSleep e = true <;> simp [countSleeps, List.filter, h] <;> omega

theorem countAttempts_cons (e : Event) (l : List Event) :
    countAttempts (e :: l) = (if eventIsAttempt e = true then 1 else 0) + countAttempts l := by
  by_cases h : eventIsAttempt e = true <;> simp [countAttempts, List.filter, h] <;> omega

theorem countCloses_cons (e : Event) (l : List Event) :
    countCloses (e :: l) = (if eventIsClose e = true then 1 else 0) + countCloses l := by
  by_cases h : eventIsClose e = true <;> simp [countCloses, List.filter, h] <;> omega

theorem retryRunAt_counts (env : Env) (opts : Options) (jIdx : Nat) (artIdx : Int)
    (article : Option Article) (dir : String) (count total : Int) (maxTrial : Nat) :
    ∀ (rem trial : Nat),
    (retryRunAt env opts jIdx artIdx article dir count total maxTrial trial rem).warnCount =
      countWarns (retryRunAt env opts jIdx artIdx article dir count total maxTrial trial rem).trace ∧
    (retryRunAt env opts jIdx artIdx article dir count total maxTrial trial rem).errorCount =
      countErrors (retryRunAt env opts jIdx artIdx article dir count total maxTrial trial rem).trace ∧
    (retryRunAt env opts jIdx artIdx article dir count total maxTrial trial rem).files =
      savedPaths (retryRunAt env opts jIdx artIdx article dir count total maxTrial trial rem).trace ∧
    (retryRunAt env opts jIdx artIdx article dir count total maxTrial trial rem).polls = 0 ∧
    (retryRunAt env opts jIdx artIdx article dir count total maxTrial trial rem).fs = [] := by
  intro rem
  induction rem with
  | zero =>
    intro trial
    simp [retryRunAt, retryLoop, DLState.init, countWarns, countErrors, savedPaths]
  | succ rem ih =>
    intro trial
    obtain ⟨hw, he, hf, hp, hfs⟩ :=
      articleRun_counts env opts (env.attempt jIdx artIdx trial) article dir
        ⟨count, total, (trial : Int) + 1, (maxTrial : Int)⟩
    obtain ⟨ihw, ihe, ihf, ihp, ihfs⟩ := ih (trial + 1)
    have hstep : retryRunAt env opts jIdx artIdx article dir count total maxTrial trial
        (rem + 1) = retryLoop env opts jIdx artIdx article dir count total maxTrial trial
        (rem + 1) (DLState.init []) := rfl
    rw [hstep]
    simp only [retryLoop]
    rw [downloadArticle_frame]
    rcases hzc : (articleRun env opts (env.attempt jIdx artIdx trial) article dir
        ⟨count, total, (trial : Int) + 1, (maxTrial : Int)⟩).2 with m | u
    case ok =>
      refine ⟨?_, ?_, ?_, ?_, ?_⟩ <;>
        simp [mergeSt, DLState.init, countWarns_append, countErrors_append,
          savedPaths_append, countWarns_cons, countErrors_cons, eventIsWarn, eventIsError,
          hw, he, hf, hp, hfs, countWarns, countErrors, savedPaths]
    case error =>
      by_cases htr : trial < opts.retry
      · by_cases hint : 0 < opts.retryInterval
        · simp only [htr, hint, if_true]
          rw [retryLoop_frame]
          refine ⟨?_, ?_, ?_, ?_, ?_⟩ <;>
            simp [mergeSt, logWarn, DLState.init, countWarns_append, countErrors_append,
              savedPaths_append, countWarns_cons, countErrors_cons, eventIsWarn,
              eventIsError, hw, he, hf, hp, hfs, ihw, ihe, ihf, ihp, ihfs,
              countWarns, countErrors, savedPaths, List.filter, List.filterMap] <;>
            omega
        · simp only [htr, hint, if_true, if_false]
          rw [retryLoop_frame]
          refine ⟨?_, ?_, ?_, ?_, ?_⟩ <;>
            simp [mergeSt, logWarn, DLState.init, countWarns_append, countErrors_append,
              savedPaths_append, countWarns_cons, countErrors_cons, eventIsWarn,
              eventIsError, hw, he, hf, hp, hfs, ihw, ihe, ihf, ihp, ihfs,
              countWarns, countErrors, savedPaths, List.filter, List.filterMap] <;>
            omega
      · simp only [htr, if_false]
        rw [retryLoop_frame]
        refine ⟨?_, ?_, ?_, ?_, ?_⟩ <;>
          simp [mergeSt, logError, DLState.init, countWarns_append, countErrors_append,
            savedPaths_append, countWarns_cons, countErrors_cons, eventIsWarn,
            eventIsError, hw, he, hf, hp, hfs, ihw, ihe, ihf, ihp, ihfs,
            countWarns, countErrors, savedPaths, List.filter, List.filterMap] <;>
          omega

theorem fsWrite_step (fs : List (String × String)) (p : String) (i : Int) (rem : Nat) :
    (if rem = 0 then fsWrite fs p (Int.repr i)
     else fsWrite (fsWrite fs p (Int.repr i)) p (Int.repr (i + 1 + (rem : Int) - 1))) =
    fsWrite fs p (Int.repr (i + ((rem : Int) + 1) - 1)) := by
  by_cases h : rem = 0
  · subst h
    simp
  · have h2 : i + 1 + (rem : Int) - 1 = i + ((rem : Int) + 1) - 1 := by omega
    simp [h, fsWrite_fsWrite, h2]

theorem journalLoop_noAbort (env : Env) (opts : Options) (jIdx : Nat)
    (articles : List Article) (dir : String) (total : Nat)
    (hab : ∀ k, env.abortAt k = false) :
    ∀ (rem : Nat) (i : Int) (st : DLState),
    journalLoop env opts jIdx articles dir total i rem st =
      ({ st with
          trace := st.trace ++ jlBlocks env opts jIdx articles dir total i rem
          fs := if rem = 0 then st.fs
            else fsWrite st.fs (getCursorPath dir) (Int.repr (i + rem - 1))
          polls := st.polls + rem
          warnCount := st.warnCount + countWarns (jlBlocks env opts jIdx articles dir total i rem)
          errorCount := st.errorCount + countErrors (jlBlocks env opts jIdx articles dir total i rem)
          files := st.files ++ savedPaths (jlBlocks env opts jIdx articles dir total i rem) },
        Except.ok ()) := by
  intro rem
  induction rem with
  | zero =>
    intro i st
    simp [journalLoop, jlBlocks, countWarns, countErrors, savedPaths]
  | succ rem ih =>
    intro i st
    obtain ⟨hw, he, hf, hp, hfs⟩ :=
      retryRunAt_counts env opts jIdx i (articleAt articles i) dir (i + 1) (total : Int)
        (1 + opts.retry) (1 + opts.retry) 0
    simp only [journalLoop, writeCursor, pollAborted, hab, if_false, Bool.false_eq_true]
    rw [downloadArticleWithRetry_frame, ih]
    simp only [Prod.mk.injEq, and_true]
    refine DLState.ext ?_ ?_ ?_ ?_ ?_ ?_
    · simp [mergeSt, jlBlocks, retryDelta, retryRun, countWarns_append, countWarns_cons,
        eventIsWarn, hw]
      omega
    · simp [mergeSt, jlBlocks, retryDelta, retryRun, countErrors_append, countErrors_cons,
        eventIsError, he]
      omega
    · simp [mergeSt, retryRun, hp]
      omega
    · simp only [mergeSt, hfs]
      simpa using fsWrite_step st.fs (getCursorPath dir) i rem
    · simp [mergeSt, jlBlocks, retryDelta, retryRun, savedPaths_append, savedPaths,
        List.filterMap, hf, List.append_assoc]
    · simp [mergeSt, jlBlocks, retryDelta, retryRun, List.append_assoc]

theorem jlBlocks_flatMap (env : Env) (opts : Options) (jIdx : Nat)
    (articles : List Article) (dir : String) (total : Nat) :
    ∀ (rem c : Nat),
    jlBlocks env opts jIdx articles dir total (c : Int) rem =
      (List.range' c rem).flatMap (fun k =>
        Event.cursorWrite dir (k : Int) :: Event.abortPoll false ::
          retryDelta env opts jIdx (k : Int) (articleAt articles (k : Int)) dir
            ((k : Int) + 1) (total : Int)) := by
  intro rem
  induction rem with
  | zero => intro c; simp [jlBlocks]
  | succ rem ih =>
    intro c
    have hc : ((c : Int) + 1) = ((c + 1 : Nat) : Int) := by push_cast; ring
    simp only [jlBlocks, List.range'_succ, List.flatMap_cons, hc, ih]
    simp

theorem retryEventOk_close (dir : String) (artIdx : Int)
    (h : retryEventOk dir artIdx Event.closeBrowser = true) : False := by
  simp [retryEventOk, eventBenign] at h

theorem retryEventOk_attempt (dir : String) (artIdx : Int) (d0 : String) (idx : Int)
    (tr : Nat) (h : retryEventOk dir artIdx (Event.attemptStart d0 idx tr) = true) :
    d0 = dir ∧ idx = artIdx := by
  simpa [retryEventOk] using h

theorem retryDelta_events (env : Env) (opts : Options) (jIdx : Nat) (artIdx : Int)
    (article : Option Article) (dir : String) (count total : Int) :
    ∀ e ∈ retryDelta env opts jIdx artIdx article dir count total,
      retryEventOk dir artIdx e = true := by
  intro e he
  exact retryRunAt_events env opts jIdx artIdx article dir count total (1 + opts.retry)
    (1 + opts.retry) 0 e he

theorem retryRunAt_attempt_mem (env : Env) (opts : Options) (jIdx : Nat) (artIdx : Int)
    (article : Option Article) (dir : String) (count total : Int) (maxTrial : Nat) :
    ∀ (rem trial : Nat),
    Event.attemptStart dir artIdx (trial + 1) ∈
      (retryRunAt env opts jIdx artIdx article dir count total maxTrial trial (Nat.succ rem)).trace := by
  intro rem trial
  simp only [retryRunAt, retryLoop]
  rw [downloadArticle_frame]
  rcases hzc : (articleRun env opts (env.attempt jIdx artIdx trial) article dir
      ⟨count, total, (trial : Int) + 1, (maxTrial : Int)⟩).2 with m | u
  case ok =>
    simp [mergeSt, DLState.init]
  case error =>
    by_cases htr : trial < opts.retry
    · by_cases hint : 0 < opts.retryInterval
      · simp only [htr, hint, if_true]
        rw [retryLoop_frame]
        simp [mergeSt, logWarn, DLState.init]
      · simp only [htr, hint, if_true, if_false]
        rw [retryLoop_frame]
        simp [mergeSt, logWarn, DLState.init]
    · simp only [htr, if_false]
      rw [retryLoop_frame]
      simp [mergeSt, logError, DLState.init]

theorem retryDelta_first (env : Env) (opts : Options) (jIdx : Nat) (artIdx : Int)
    (article : Option Article) (dir : String) (count total : Int) :
    Event.attemptStart dir artIdx 1 ∈ retryDelta env opts jIdx artIdx article dir count total := by
  have h1 : 1 + opts.retry = Nat.succ opts.retry := Nat.one_add _
  have h := retryRunAt_attempt_mem env opts jIdx artIdx article dir count total
    (1 + opts.retry) opts.retry 0
  simpa [retryDelta, retryRun, h1] using h

theorem journalLoop_abort (env : Env) (opts : Options) (jIdx : Nat)
    (articles : List Article) (dir : String) (total : Nat) :
    ∀ (rem : Nat) (i : Int) (st stR : DLState) (e : String),
    journalLoop env opts jIdx articles dir total i rem st = (stR, Except.error e) →
    e = "Aborted" ∧
    ∃ i2 : Int, i ≤ i2 ∧
      fsLookup stR.fs (getCursorPath dir) = some (Int.repr i2) ∧
      ∃ d : List Event, stR.trace = st.trace ++ d ∧
        (∀ (d0 : String) (idx : Int) (tr : Nat),
          Event.attemptStart d0 idx tr ∈ d → d0 = dir ∧ i ≤ idx ∧ idx < i2) ∧
        (i2 = i ∨ ∃ tr : Nat, Event.attemptStart dir (i2 - 1) tr ∈ d) := by
  intro rem
  induction rem with
  | zero =>
    intro i st stR e h
    simp [journalLoop] at h
  | succ rem ih =>
    intro i st stR e h
    simp only [journalLoop, writeCursor, pollAborted] at h
    by_cases hab : env.abortAt st.polls = true
    · rw [if_pos hab] at h
      simp only [Prod.mk.injEq] at h
      obtain ⟨hst, he2⟩ := h
      subst hst
      simp only [Except.error.injEq] at he2
      subst he2
      refine ⟨rfl, i, le_refl i, ?_, ?_⟩
      · simpa using fsLookup_fsWrite st.fs (getCursorPath dir) (Int.repr i)
      · refine ⟨[Event.cursorWrite dir i, Event.abortPoll (env.abortAt st.polls)],
          by simp, ?_, Or.inl rfl⟩
        intro d0 idx tr hmem
        simp at hmem
    · rw [if_neg hab] at h
      rw [downloadArticleWithRetry_frame] at h
      obtain ⟨hE, i2, hle, hlook, d3, htr3, hatt3, hlast3⟩ := ih (i + 1) _ stR e h
      subst hE
      have hF : env.abortAt st.polls = false := Bool.not_eq_true _ ▸ hab
      refine ⟨rfl, i2, by omega, hlook, ?_⟩
      refine ⟨[Event.cursorWrite dir i, Event.abortPoll (env.abortAt st.polls)] ++
        retryDelta env opts jIdx i (articleAt articles i) dir (i + 1) (total : Int) ++ d3,
        ?_, ?_, ?_⟩
      · rw [htr3]
        simp [mergeSt, retryDelta, List.append_assoc]
      · intro d0 idx tr hmem
        simp only [List.append_assoc, List.mem_append, List.mem_cons,
          List.mem_singleton] at hmem
        rcases hmem with (hmem | hmem) | hmem | hmem
        · simp at hmem
        · simp at hmem
        · obtain ⟨hd, hidx⟩ := retryEventOk_attempt dir i d0 idx tr
            (retryDelta_events env opts jIdx i (articleAt articles i) dir (i + 1)
              (total : Int) _ hmem)
          exact ⟨hd, by omega, by omega⟩
        · obtain ⟨hd, hi1, hi2⟩ := hatt3 d0 idx tr hmem
          exact ⟨hd, by omega, hi2⟩
      · rcases hlast3 with hcase | ⟨tr, hmem⟩
        · right
          refine ⟨1, ?_⟩
          have : i2 - 1 = i := by omega
          rw [this]
          simp only [List.append_assoc, List.mem_append]
          exact Or.inr (Or.inl (retryDelta_first env opts jIdx i (articleAt articles i)
            dir (i + 1) (total : Int)))
        · right
          refine ⟨tr, ?_⟩
          simp only [List.append_assoc, List.mem_append]
          exact Or.inr (Or.inr hmem)

theorem removeCursor_lookup (st : DLState) (dir : String) :
    fsLookup (removeCursor st dir).1.fs (getCursorPath dir) = none := by
  unfold removeCursor
  cases hl : fsLookup st.fs (getCursorPath dir) with
  | none => simpa using hl
  | some v => simpa using fsLookup_fsErase st.fs (getCursorPath dir)

theorem removeCursor_error (st : DLState) (dir : String) (e : String)
    (h : (removeCursor st dir).2 = Except.error e) :
    e = "ENOENT: no such file or directory, unlink " ++ getCursorPath dir ∧
      (removeCursor st dir).1 = st := by
  unfold removeCursor at *
  cases hl : fsLookup st.fs (getCursorPath dir) with
  | none =>
    rw [hl] at h
    simp at h
    exact ⟨h.symm, rfl⟩
  | some v =>
    rw [hl] at h
    simp at h

theorem enoent_ne_aborted (p : String) :
    "ENOENT: no such file or directory, unlink " ++ p ≠ "Aborted" := by
  intro h
  have hlen := congrArg String.length h
  rw [String.length_append] at hlen
  have h1 : ("ENOENT: no such file or directory, unlink " : String).length = 42 := rfl
  have h2 : ("Aborted" : String).length = 7 := rfl
  omega

theorem downloadJournal_noAbort_cursor (env : Env) (opts : Options) (jIdx : Nat)
    (j : Journal) (st : DLState) (hab : ∀ k, env.abortAt k = false) :
    fsLookup (downloadJournal env opts jIdx j st).1.fs
      (getCursorPath (journalDir opts j)) = none := by
  simp only [downloadJournal, logInfo]
  cases hc : readCursor st.fs (journalDir opts j) with
  | none =>
    simp only [hc]
    exact removeCursor_lookup _ _
  | some c =>
    simp only [hc]
    rw [journalLoop_noAbort env opts jIdx j.articles (journalDir opts j)
      j.articles.length hab]
    exact removeCursor_lookup _ _

theorem downloadJournal_abort (env : Env) (opts : Options) (jIdx : Nat)
    (j : Journal) (st stR : DLState)
    (h : downloadJournal env opts jIdx j st = (stR, Except.error "Aborted")) :
    ∃ c i2 : Int, readCursor st.fs (journalDir opts j) = some c ∧ c ≤ i2 ∧
      fsLookup stR.fs (getCursorPath (journalDir opts j)) = some (Int.repr i2) ∧
      ∃ d : List Event, stR.trace = st.trace ++ d ∧
        (∀ (d0 : String) (idx : Int) (tr : Nat),
          Event.attemptStart d0 idx tr ∈ d →
            d0 = journalDir opts j ∧ c ≤ idx ∧ idx < i2) ∧
        (i2 = c ∨ ∃ tr : Nat, Event.attemptStart (journalDir opts j) (i2 - 1) tr ∈ d) := by
  simp only [downloadJournal, logInfo] at h
  split at h
  next heq =>
    have h2 := congrArg Prod.snd h
    obtain ⟨he, hst⟩ := removeCursor_error _ _ _ h2
    exact absurd he.symm (enoent_ne_aborted _)
  next c heq =>
    split at h
    next s1 u hjl =>
      have h2 := congrArg Prod.snd h
      obtain ⟨he, hst⟩ := removeCursor_error _ _ _ h2
      exact absurd he.symm (enoent_ne_aborted _)
    next s1 e1 hjl =>
      simp only [Prod.mk.injEq, Except.error.injEq] at h
      obtain ⟨h1, h2⟩ := h
      subst h1
      subst h2
      obtain ⟨hE, i2, hle, hlook, d, htr, hatt, hlast⟩ :=
        journalLoop_abort env opts jIdx j.articles (journalDir opts j)
          j.articles.length _ c _ s1 "Aborted" hjl
      refine ⟨c, i2, heq, hle, hlook,
        Event.info (fmtMsg none ("mkdir -p " ++ journalDir opts j ++ "...")) :: d, ?_, ?_, ?_⟩
      · rw [htr]
        simp
      · intro d0 idx tr hmem
        rcases List.mem_cons.mp hmem with hmem | hmem
        · simp at hmem
        · exact hatt d0 idx tr hmem
      · rcases hlast with hcase | ⟨tr, hmem⟩
        · exact Or.inl hcase
        · exact Or.inr ⟨tr, List.mem_cons_of_mem _ hmem⟩

theorem countWarns_nil : countWarns [] = 0 := rfl

theorem countErrors_nil : countErrors [] = 0 := rfl

theorem countSleeps_nil : countSleeps [] = 0 := rfl

theorem countAttempts_nil : countAttempts [] = 0 := rfl

theorem countCloses_nil : countCloses [] = 0 := rfl


theorem retryRun_closes (env : Env) (opts : Options) (jIdx : Nat) (artIdx : Int)
    (article : Option Article) (dir : String) (count total : Int) :
    countCloses (retryRun env opts jIdx artIdx article dir count total).trace = 0 := by
  have hall : ∀ e ∈ (retryRun env opts jIdx artIdx article dir count total).trace,
      ¬ eventIsClose e = true := by
    intro e he hcl
    have h := retryDelta_events env opts jIdx artIdx article dir count total e he
    cases e <;> simp [eventIsClose] at hcl <;> simp [retryEventOk, eventBenign] at h
  simp [countCloses, List.filter_eq_nil_iff.mpr hall]

theorem journalLoop_closes (env : Env) (opts : Options) (jIdx : Nat)
    (articles : List Article) (dir : String) (total : Nat) :
    ∀ (rem : Nat) (i : Int) (st : DLState),
    countCloses (journalLoop env opts jIdx articles dir total i rem st).1.trace =
      countCloses st.trace := by
  intro rem
  induction rem with
  | zero => intro i st; simp [journalLoop]
  | succ rem ih =>
    intro i st
    simp only [journalLoop, writeCursor, pollAborted]
    by_cases hab : env.abortAt st.polls = true
    · rw [if_pos hab]
      simp [countCloses_append, countCloses_cons, countCloses, eventIsClose]
    · rw [if_neg hab]
      rw [downloadArticleWithRetry_frame, ih]
      simp [mergeSt, countCloses_append, countCloses_cons, countCloses_nil, eventIsClose,
        retryRun_closes]

theorem removeCursor_closes (st : DLState) (dir : String) :
    countCloses (removeCursor st dir).1.trace = countCloses st.trace := by
  unfold removeCursor
  cases hl : fsLookup st.fs (getCursorPath dir) with
  | none => simp
  | some v => simp [countCloses_append, countCloses_cons, eventIsClose, countCloses]

theorem downloadJournal_closes (env : Env) (opts : Options) (jIdx : Nat)
    (j : Journal) (st : DLState) :
    countCloses (downloadJournal env opts jIdx j st).1.trace = countCloses st.trace := by
  simp only [downloadJournal, logInfo]
  split
  next heq =>
    rw [removeCursor_closes]
    simp [countCloses_append, countCloses_cons, eventIsClose, countCloses]
  next c heq =>
    split
    next s1 u hjl =>
      rw [removeCursor_closes]
      have := journalLoop_closes env opts jIdx j.articles (journalDir opts j)
        j.articles.length (((j.articles.length : Int) - c).toNat) c
        { st with trace := st.trace ++
            [Event.info (fmtMsg none ("mkdir -p " ++ journalDir opts j ++ "..."))] }
      rw [hjl] at this
      simp only at this
      rw [this]
      simp [countCloses_append, countCloses_cons, eventIsClose, countCloses]
    next s1 e1 hjl =>
      have := journalLoop_closes env opts jIdx j.articles (journalDir opts j)
        j.articles.length (((j.articles.length : Int) - c).toNat) c
        { st with trace := st.trace ++
            [Event.info (fmtMsg none ("mkdir -p " ++ journalDir opts j ++ "..."))] }
      rw [hjl] at this
      simp only at this
      rw [this]
      simp [countCloses_append, countCloses_cons, eventIsClose, countCloses]

theorem downloadJournalsLoop_closes (env : Env) (opts : Options) :
    ∀ (journals : List Journal) (jIdx : Nat) (st : DLState),
    countCloses (downloadJournalsLoop env opts jIdx journals st).1.trace =
      countCloses st.trace := by
  intro journals
  induction journals with
  | nil => intro jIdx st; simp [downloadJournalsLoop]
  | cons j rest ih =>
    intro jIdx st
    simp only [downloadJournalsLoop]
    cases hdj : downloadJournal env opts jIdx j st with
    | mk s1 r1 =>
      cases r1 with
      | ok u =>
        simp only
        rw [ih]
        have := downloadJournal_closes env opts jIdx j st
        rw [hdj] at this
        exact this
      | error e1 =>
        simp only
        have := downloadJournal_closes env opts jIdx j st
        rw [hdj] at this
        exact this

theorem downloadJournals_closes (env : Env) (opts : Options) (journals : List Journal)
    (st : DLState) :
    countCloses (downloadJournals env opts journals st).trace = countCloses st.trace := by
  simp only [downloadJournals]
  cases hdl : downloadJournalsLoop env opts 0 journals st with
  | mk s1 r1 =>
    have := downloadJournalsLoop_closes env opts journals 0 st
    rw [hdl] at this
    cases r1 with
    | ok u => simpa using this
    | error e1 =>
      simp only [logError]
      rw [countCloses_append]
      simpa [countCloses, eventIsClose] using this


theorem download_closes (env : Env) (opts : Options) (journals : List Journal)
    (fs0 : List (String × String)) (hl : env.launchError = none) :
    countCloses (download env opts journals fs0).1.trace = 1 := by
  have hJ := downloadJournals_closes env opts journals
    (logInfo (DLState.init fs0) "Trying to login to www.nature.com..." none)
  simp only [logInfo, fmtMsg, DLState.init, List.nil_append] at hJ
  have hJ0 : countCloses (downloadJournals env opts journals
      ⟨0, 0, 0, fs0, [], [Event.info "Trying to login to www.nature.com..."]⟩).trace = 0 := by
    rw [hJ]
    simp [countCloses_cons, countCloses_nil, eventIsClose]
  cases hlog : env.loginError with
  | some msg =>
    simp [download, hl, hlog, logInfo, logError, fmtMsg, DLState.init, countCloses_append,
      countCloses_cons, countCloses_nil, eventIsClose]
  | none =>
    cases hout : env.logoutError with
    | some msg =>
      simp [download, hl, hlog, hout, logInfo, logError, fmtMsg, DLState.init,
        countCloses_append, countCloses_cons, countCloses_nil, eventIsClose, hJ0]
    | none =>
      simp [download, hl, hlog, hout, logInfo, logError, fmtMsg, DLState.init,
        countCloses_append, countCloses_cons, countCloses_nil, eventIsClose, hJ0]

theorem digitChar_props (d : Nat) (hd : d < 10) :
    (Nat.digitChar d).isDigit = true ∧ digitVal (Nat.digitChar d) = d ∧
    Nat.digitChar d ≠ '-' ∧ Nat.digitChar d ≠ '+' ∧
    isJsSpace (Nat.digitChar d) = false := by
  interval_cases d <;> exact ⟨rfl, rfl, by decide, by decide, rfl⟩

theorem natDigits_ne_nil (n : Nat) : natDigits n ≠ [] := by
  rw [natDigits]
  split
  · simp
  · simp

theorem natDigits_all_digits (n : Nat) :
    ∀ c ∈ natDigits n, ∃ d : Nat, d < 10 ∧ c = Nat.digitChar d := by
  induction n using Nat.strong_induction_on with
  | _ n ih =>
    rw [natDigits]
    split
    next h =>
      intro c hc
      simp only [List.mem_singleton] at hc
      exact ⟨n, h, hc⟩
    next h =>
      intro c hc
      rcases List.mem_append.mp hc with hc | hc
      · exact ih (n / 10) (Nat.div_lt_self (by omega) (by norm_num)) c hc
      · simp only [List.mem_singleton] at hc
        exact ⟨n % 10, Nat.mod_lt _ (by norm_num), hc⟩

theorem toDigitsCore_eq_natDigits :
    ∀ (f n : Nat) (ds : List Char), n < f →
    Nat.toDigitsCore 10 f n ds = natDigits n ++ ds := by
  intro f
  induction f with
  | zero => intro n ds h; omega
  | succ f ih =>
    intro n ds h
    simp only [Nat.toDigitsCore]
    by_cases hdiv : n / 10 = 0
    · have hn : n < 10 := by omega
      rw [if_pos hdiv, natDigits, if_pos hn, Nat.mod_eq_of_lt hn]
      simp
    · rw [if_neg hdiv]
      have hn : ¬ n < 10 := by
        intro hlt
        exact hdiv (Nat.div_eq_of_lt hlt)
      have hrec : n / 10 < f := by
        have h2 : n / 10 < n := Nat.div_lt_self (by omega) (by norm_num)
        omega
      have hnd : natDigits n = natDigits (n / 10) ++ [Nat.digitChar (n % 10)] := by
        rw [natDigits]
        exact if_neg hn
      rw [ih (n / 10) (Nat.digitChar (n % 10) :: ds) hrec, hnd]
      simp

theorem repr_eq_natDigits (n : Nat) : (Nat.repr n).toList = natDigits n := by
  have h : Nat.repr n = (Nat.toDigitsCore 10 (n + 1) n []).asString := rfl
  rw [h, toDigitsCore_eq_natDigits (n + 1) n [] (by omega)]
  simp [List.asString, String.toList]

theorem natDigits_foldl (n : Nat) :
    ∀ acc : Nat,
    (natDigits n).foldl (fun a c => 10 * a + digitVal c) acc =
      acc * 10 ^ (natDigits n).length + n := by
  induction n using Nat.strong_induction_on with
  | _ n ih =>
    intro acc
    rw [natDigits]
    split
    next h =>
      simp [List.foldl, (digitChar_props n h).2.1]
      ring
    next h =>
      rw [List.foldl_append]
      rw [ih (n / 10) (Nat.div_lt_self (by omega) (by norm_num)) acc]
      simp only [List.foldl, List.length_append, List.length_singleton]
      rw [(digitChar_props (n % 10) (Nat.mod_lt _ (by norm_num))).2.1]
      rw [pow_succ]
      have := Nat.div_add_mod n 10
      ring_nf
      omega

theorem takeWhile_digits (cs : List Char)
    (h : ∀ c ∈ cs, c.isDigit = true) : cs.takeWhile Char.isDigit = cs := by
  induction cs with
  | nil => rfl
  | cons c rest ih =>
    simp only [List.takeWhile]
    rw [h c (List.mem_cons_self c rest)]
    simp [ih (fun x hx => h x (List.mem_cons_of_mem c hx))]

theorem parseNatDigits_natDigits (n : Nat) :
    parseNatDigits (natDigits n) = some n := by
  have hdig : ∀ c ∈ natDigits n, c.isDigit = true := by
    intro c hc
    obtain ⟨d, hd, rfl⟩ := natDigits_all_digits n c hc
    exact (digitChar_props d hd).1
  simp only [parseNatDigits, takeWhile_digits _ hdig]
  rw [if_neg (by simpa [List.isEmpty_iff] using natDigits_ne_nil n)]
  rw [natDigits_foldl n 0]
  simp

theorem parseIntJs_repr (n : Nat) : parseIntJs (Nat.repr n) = some (n : Int) := by
  simp only [parseIntJs, repr_eq_natDigits]
  obtain ⟨c, rest, hcr⟩ : ∃ c rest, natDigits n = c :: rest := by
    cases h : natDigits n with
    | nil => exact absurd h (natDigits_ne_nil n)
    | cons c rest => exact ⟨c, rest, rfl⟩
  obtain ⟨d, hd, hcd⟩ := natDigits_all_digits n c (by rw [hcr]; exact List.mem_cons_self c rest)
  obtain ⟨hdig, hval, hminus, hplus, hspace⟩ := digitChar_props d hd
  rw [hcd] at hcr
  rw [hcr]
  simp only [List.dropWhile]
  rw [hspace]
  simp only
  rw [if_neg hminus, if_neg hplus]
  rw [← hcr, parseNatDigits_natDigits n]
  rfl

theorem natDigits_length_ge3 (n : Nat) (h : 100 ≤ n) : 3 ≤ (natDigits n).length := by
  have h1 : ¬ n < 10 := by omega
  have h2 : ¬ n / 10 < 10 := by
    have h4 : 100 / 10 ≤ n / 10 := Nat.div_le_div_right h
    omega
  rw [natDigits, if_neg h1, natDigits, if_neg h2]
  have h3 := List.length_pos.mpr (natDigits_ne_nil (n / 10 / 10))
  simp [List.length_append]
  omega

theorem repr_length_eq (n : Nat) : (Nat.repr n).length = (natDigits n).length := by
  calc (Nat.repr n).length = (Nat.repr n).toList.length := rfl
  _ = (natDigits n).length := by rw [repr_eq_natDigits]

theorem substrLast2_truncates (n : Nat) (h : 100 ≤ n) :
    substrLast2 (" " ++ Nat.repr n) ≠ Nat.repr n := by
  intro heq
  have hL : 3 ≤ (Nat.repr n).length := by
    rw [repr_length_eq]
    exact natDigits_length_ge3 n h
  have hlist : (" " ++ Nat.repr n).toList = ' ' :: (Nat.repr n).toList := by
    simp [String.toList, String.data_append]
  have hlen2 : (substrLast2 (" " ++ Nat.repr n)).length = 2 := by
    have hlen : (Nat.repr n).toList.length = (Nat.repr n).length := rfl
    simp only [substrLast2, hlist]
    have : ((' ' :: (Nat.repr n).toList).drop
        ((' ' :: (Nat.repr n).toList).length - 2)).length =
        (' ' :: (Nat.repr n).toList).length -
          ((' ' :: (Nat.repr n).toList).length - 2) := List.length_drop _ _
    calc ((' ' :: (Nat.repr n).toList).drop
        ((' ' :: (Nat.repr n).toList).length - 2)).asString.length
        = ((' ' :: (Nat.repr n).toList).drop
            ((' ' :: (Nat.repr n).toList).length - 2)).length := rfl
    _ = 2 := by
        rw [this]
        simp only [List.length_cons]
        omega
  rw [heq] at hlen2
  omega

theorem substrLast2_pad_lt100 :
    ∀ n : Nat, n < 100 → substrLast2 (" " ++ Nat.repr n) = spacePad2 n := by
  decide

theorem retryLoop_fail (env : Env) (opts : Options) (jIdx : Nat) (artIdx : Int)
    (a : Article) (dir : String) (count total : Int) (maxTrial : Nat) (m : Nat → String)
    (hfail : ∀ t, env.attempt jIdx artIdx t = AttemptSpec.fail (m t)) :
    ∀ (rem trial : Nat) (st : DLState),
    retryLoop env opts jIdx artIdx (some a) dir count total maxTrial trial rem st =
      { st with
        trace := st.trace ++ failTrace opts a dir artIdx count total maxTrial m trial rem
        warnCount := st.warnCount +
          countWarns (failTrace opts a dir artIdx count total maxTrial m trial rem)
        errorCount := st.errorCount +
          countErrors (failTrace opts a dir artIdx count total maxTrial m trial rem) } := by
  intro rem
  induction rem with
  | zero =>
    intro trial st
    simp [retryLoop, failTrace, countWarns_nil, countErrors_nil]
  | succ rem ih =>
    intro trial st
    simp only [retryLoop, hfail trial, downloadArticle, logInfo]
    by_cases htr : trial < opts.retry
    · by_cases hint : 0 < opts.retryInterval
      · simp only [htr, hint, if_true]
        rw [ih]
        refine DLState.ext ?_ ?_ ?_ ?_ ?_ ?_ <;>
          simp [logWarn, failTrace, htr, hint, fmtMsg, countWarns_append, countWarns_cons,
            countErrors_append, countErrors_cons, eventIsWarn, eventIsError,
            List.append_assoc] <;>
          omega
      · simp only [htr, hint, if_true, if_false]
        rw [ih]
        refine DLState.ext ?_ ?_ ?_ ?_ ?_ ?_ <;>
          simp [logWarn, failTrace, htr, hint, fmtMsg, countWarns_append, countWarns_cons,
            countErrors_append, countErrors_cons, eventIsWarn, eventIsError,
            List.append_assoc] <;>
          omega
    · simp only [htr, if_false]
      rw [ih]
      refine DLState.ext ?_ ?_ ?_ ?_ ?_ ?_ <;>
        simp [logError, failTrace, htr, fmtMsg, countWarns_append, countWarns_cons,
          countErrors_append, countErrors_cons, eventIsWarn, eventIsError,
          List.append_assoc] <;>
        omega

theorem failTrace_counts (opts : Options) (a : Article) (dir : String) (artIdx : Int)
    (count total : Int) (maxTrial : Nat) (m : Nat → String) :
    ∀ (rem trial : Nat), trial + rem = opts.retry →
    countWarns (failTrace opts a dir artIdx count total maxTrial m trial (rem + 1)) = rem ∧
    countErrors (failTrace opts a dir artIdx count total maxTrial m trial (rem + 1)) = 1 ∧
    countSleeps (failTrace opts a dir artIdx count total maxTrial m trial (rem + 1)) =
      (if 0 < opts.retryInterval then rem else 0) ∧
    countAttempts (failTrace opts a dir artIdx count total maxTrial m trial (rem + 1)) =
      rem + 1 := by
  intro rem
  induction rem with
  | zero =>
    intro trial htr
    have hnot : ¬ trial < opts.retry := by omega
    simp [failTrace, hnot, countWarns_cons, countErrors_cons, countSleeps_cons,
      countAttempts_cons, countWarns_append, countErrors_append, countSleeps_append,
      countAttempts_append, countWarns_nil, countErrors_nil, countSleeps_nil,
      countAttempts_nil, eventIsWarn, eventIsError, eventIsSleep, eventIsAttempt]
  | succ rem ih =>
    intro trial htr
    have hlt : trial < opts.retry := by omega
    obtain ⟨ihw, ihe, ihs, iha⟩ := ih (trial + 1) (by omega)
    rw [failTrace]
    by_cases hint : 0 < opts.retryInterval <;>
      simp [hlt, hint, countWarns_cons, countErrors_cons, countSleeps_cons,
        countAttempts_cons, countWarns_append, countErrors_append, countSleeps_append,
        countAttempts_append, eventIsWarn, eventIsError, eventIsSleep, eventIsAttempt,
        ihw, ihe, iha] <;>
      simp [hint] at ihs <;>
      omega

theorem failTrace_warnMsgs_zero (opts : Options) (a : Article) (dir : String)
    (artIdx : Int) (count total : Int) (maxTrial : Nat) (m : Nat → String)
    (hint : opts.retryInterval = 0) :
    ∀ (rem trial : Nat), trial + rem = opts.retry →
    warnMsgs (failTrace opts a dir artIdx count total maxTrial m trial (rem + 1)) =
      (List.range' trial rem).map (fun t : Nat =>
        (Progress.indicator ⟨count, total, (t : Int) + 1, (maxTrial : Int)⟩)
          ++ ": " ++ ("Retry: " ++ m t)) := by
  intro rem
  induction rem with
  | zero =>
    intro trial htr
    have hnot : ¬ trial < opts.retry := by omega
    simp [failTrace, hnot, warnMsgs, List.filterMap]
  | succ rem ih =>
    intro trial htr
    have hlt : trial < opts.retry := by omega
    have hni : ¬ 0 < opts.retryInterval := by omega
    have hih := ih (trial + 1) (by omega)
    rw [List.range'_succ, failTrace]
    simp only [hlt, hni, if_true, if_false, List.map_cons]
    simp only [warnMsgs] at hih
    simp only [warnMsgs, List.filterMap_cons, List.filterMap_append, hih]
    simp

/-! ### Claim theorems -/

theorem download_shape (env : Env) (opts : Options) (journals : List Journal)
    (fs0 : List (String × String)) :
    ∃ st : DLState, download env opts journals fs0 = (st, if 0 < st.errorCount then 1 else 0) := by
  simp only [download]
  cases env.launchError with
  | some msg => exact ⟨_, rfl⟩
  | none =>
    cases env.loginError with
    | some msg => exact ⟨_, rfl⟩
    | none =>
      cases env.logoutError with
      | some msg => exact ⟨_, rfl⟩
      | none => exact ⟨_, rfl⟩

/-- C1: for every run of `download`, the returned exit status is 0 if and
only if the error counter is 0 at the end of the run, and it is non-zero if
and only if at least one error was counted — warnings alone never make the
status non-zero (the status reads only `errorCount`). -/
theorem c1_download_exit_iff_no_errors (env : Env) (opts : Options)
    (journals : List Journal) (fs0 : List (String × String)) :
    ((download env opts journals fs0).2 = 0 ↔
      (download env opts journals fs0).1.errorCount = 0) ∧
    ((download env opts journals fs0).2 ≠ 0 ↔
      0 < (download env opts journals fs0).1.errorCount) := by
  obtain ⟨st, hd⟩ := download_shape env opts journals fs0
  rw [hd]
  by_cases h : 0 < st.errorCount <;> simp [h] <;> omega

/-- C7 counterexample: with a corrupt (non-numeric) cursor file present,
`readCursor` returns `NaN` (modelled `none`) — not the integer 0, and not
any integer. -/
theorem c7_counterexample_corrupt_cursor :
    readCursor [("d/cursor", "x")] "d" = none ∧
    readCursor [("d/cursor", "x")] "d" ≠ some 0 ∧
    (∀ k : Int, readCursor [("d/cursor", "x")] "d" ≠ some k) := by
  refine ⟨by decide, by decide, ?_⟩
  intro k
  simp [show readCursor [("d/cursor", "x")] "d" = none from by decide]

/-- C7 (amended): `readCursor` never throws (it is a total function); it
returns the integer 0 when the cursor file is absent; when the file is
present it returns `parseInt` of the contents, which is `some` of the
stored integer for every decimal-numeral content (in particular everything
`writeCursor` writes reads back), but is `NaN` (`none`), not an integer,
when the content has no leading integer. -/
theorem c7_readCursor_amended (fs : List (String × String)) (dir : String) :
    (fsLookup fs (getCursorPath dir) = none → readCursor fs dir = some 0) ∧
    (∀ s, fsLookup fs (getCursorPath dir) = some s → readCursor fs dir = parseIntJs s) ∧
    (∀ n : Nat, parseIntJs (Nat.repr n) = some (n : Int)) := by
  refine ⟨?_, ?_, fun n => parseIntJs_repr n⟩
  · intro h
    simp [readCursor, h]
  · intro s h
    simp [readCursor, h]

theorem c7_readCursor_amended_witness :
    readCursor [] "d" = some 0 ∧ parseIntJs (Nat.repr 7) = some 7 :=
  ⟨(c7_readCursor_amended [] "d").1 rfl, (c7_readCursor_amended [] "d").2.2 7⟩

/-- C9 counterexample: the Progress item indicator truncates values of 100
or more to their last two characters: count 123 renders as "23", not in
full as the claim states. -/
theorem c9_counterexample_truncation :
    Progress.indicator ⟨123, 45, 1, 2⟩ = "23/45: 1/2" ∧
    Progress.indicator ⟨123, 45, 1, 2⟩ ≠ "123/45: 1/2" := by
  refine ⟨rfl, by decide⟩

/-- C9 (amended): the indicator renders as "NN/MM: trial/maxTrial"; for
count/total below 100 the item fields are the decimal value padded with a
leading space to two characters when it is a single digit (so values of
10..99 render in full); count or total values of 100 or more are truncated
to their last two characters, not rendered in full. -/
theorem c9_indicator_padding (count total trial maxTrial : Nat)
    (hc : count < 100) (ht : total < 100) (n : Nat) (hn : 100 ≤ n) :
    Progress.indicator ⟨(count : Int), (total : Int), (trial : Int), (maxTrial : Int)⟩ =
      spacePad2 count ++ "/" ++ spacePad2 total ++ ": "
        ++ Nat.repr trial ++ "/" ++ Nat.repr maxTrial ∧
    substrLast2 (" " ++ Int.repr ((n : Nat) : Int)) ≠ Nat.repr n := by
  constructor
  · have hrc : Int.repr ((count : Nat) : Int) = Nat.repr count := rfl
    have hrt : Int.repr ((total : Nat) : Int) = Nat.repr total := rfl
    have hrtr : Int.repr ((trial : Nat) : Int) = Nat.repr trial := rfl
    have hrm : Int.repr ((maxTrial : Nat) : Int) = Nat.repr maxTrial := rfl
    simp only [Progress.indicator, hrc, hrt, hrtr, hrm,
      substrLast2_pad_lt100 count hc, substrLast2_pad_lt100 total ht]
  · have hrn : Int.repr ((n : Nat) : Int) = Nat.repr n := rfl
    rw [hrn]
    exact substrLast2_truncates n hn

theorem c9_indicator_padding_witness :
    Progress.indicator ⟨5, 45, 1, 2⟩ = spacePad2 5 ++ "/" ++ spacePad2 45 ++ ": "
      ++ Nat.repr 1 ++ "/" ++ Nat.repr 2 ∧
    substrLast2 (" " ++ Int.repr ((123 : Nat) : Int)) ≠ Nat.repr 123 :=
  c9_indicator_padding 5 45 1 2 (by decide) (by decide) 123 (by decide)

/-- C3: with `maxTrials = 1 + R` and every attempt failing, the retry
wrapper for that article logs exactly `R` warnings and exactly 1 error,
sleeps between trials exactly `R` times when the retry interval is
positive and never when it is 0, the zero-interval warnings read
"Retry: reason" (no interval wording), and no failure escapes the wrapper:
the per-journal loop can only ever throw "Aborted", never an article
failure, so the journal continues with the next article. -/
theorem c3_retry_exhaustion (env : Env) (opts : Options) (jIdx : Nat) (artIdx : Int)
    (a : Article) (dir : String) (count total : Int) (m : Nat → String) (st : DLState)
    (R : Nat) (hR : opts.retry = R)
    (hfail : ∀ t, env.attempt jIdx artIdx t = AttemptSpec.fail (m t)) :
    downloadArticleWithRetry env opts jIdx artIdx (some a) dir count total st =
      { st with
        trace := st.trace ++
          failTrace opts a dir artIdx count total (1 + R) m 0 (1 + R)
        warnCount := st.warnCount + R
        errorCount := st.errorCount + 1 } ∧
    countWarns (failTrace opts a dir artIdx count total (1 + R) m 0 (1 + R)) = R ∧
    countErrors (failTrace opts a dir artIdx count total (1 + R) m 0 (1 + R)) = 1 ∧
    countSleeps (failTrace opts a dir artIdx count total (1 + R) m 0 (1 + R)) =
      (if 0 < opts.retryInterval then R else 0) ∧
    countAttempts (failTrace opts a dir artIdx count total (1 + R) m 0 (1 + R)) = 1 + R ∧
    (opts.retryInterval = 0 →
      warnMsgs (failTrace opts a dir artIdx count total (1 + R) m 0 (1 + R)) =
        (List.range' 0 R).map (fun t : Nat =>
          (Progress.indicator ⟨count, total, (t : Int) + 1, ((1 + R : Nat) : Int)⟩)
            ++ ": " ++ ("Retry: " ++ m t))) ∧
    (∀ (articles : List Article) (dirJ : String) (totJ : Nat) (i : Int) (rem : Nat)
      (st2 stR : DLState) (e : String),
      journalLoop env opts jIdx articles dirJ totJ i rem st2 = (stR, Except.error e) →
      e = "Aborted") := by
  subst hR
  have h1 : 1 + opts.retry = opts.retry + 1 := Nat.add_comm 1 _
  simp only [h1]
  obtain ⟨hw, he, hs, ha⟩ :=
    failTrace_counts opts a dir artIdx count total (opts.retry + 1) m opts.retry 0
      (by omega)
  refine ⟨?_, hw, he, hs, ha, ?_, ?_⟩
  · rw [downloadArticleWithRetry,
      retryLoop_fail env opts jIdx artIdx a dir count total (1 + opts.retry) m hfail]
    simp only [h1]
    rw [hw, he]
  · intro hz
    exact failTrace_warnMsgs_zero opts a dir artIdx count total
      (opts.retry + 1) m hz opts.retry 0 (by omega)
  · intro articles dirJ totJ i rem st2 stR e h
    exact (journalLoop_abort env opts jIdx articles dirJ totJ rem i st2 stR e h).1

theorem c3_retry_exhaustion_witness :
    (downloadArticleWithRetry ⟨none, none, none, id,
        fun _ _ t => AttemptSpec.fail (Nat.repr t), fun _ => false⟩
        ⟨2, 0, 0, "o"⟩ 0 0 (some ⟨"t", "u"⟩) "D" 1 1 (DLState.init [])).warnCount = 2 ∧
    (downloadArticleWithRetry ⟨none, none, none, id,
        fun _ _ t => AttemptSpec.fail (Nat.repr t), fun _ => false⟩
        ⟨2, 0, 0, "o"⟩ 0 0 (some ⟨"t", "u"⟩) "D" 1 1 (DLState.init [])).errorCount = 1 := by
  have h := c3_retry_exhaustion ⟨none, none, none, id,
      fun _ _ t => AttemptSpec.fail (Nat.repr t), fun _ => false⟩
    ⟨2, 0, 0, "o"⟩ 0 0 ⟨"t", "u"⟩ "D" 1 1 Nat.repr (DLState.init []) 2 rfl
    (fun t => rfl)
  exact ⟨by rw [h.1]; rfl, by rw [h.1]; rfl⟩


theorem retry_noPdf_eq (env : Env) (opts : Options) (jIdx : Nat) (artIdx : Int)
    (a : Article) (dir : String) (count total : Int) (st : DLState)
    (hnp : env.attempt jIdx artIdx 0 = AttemptSpec.noPdf) :
    downloadArticleWithRetry env opts jIdx artIdx (some a) dir count total st =
      { st with
        trace := st.trace ++
          [Event.attemptStart dir artIdx 1,
           Event.info ((Progress.indicator
              ⟨count, total, 1, ((1 + opts.retry : Nat) : Int)⟩)
             ++ ": " ++ ("Loading " ++ a.url ++ "...")),
           Event.info ((Progress.indicator
              ⟨count, total, 1, ((1 + opts.retry : Nat) : Int)⟩)
             ++ ": " ++ "Looking for a PDF file..."),
           Event.warn ((Progress.indicator
              ⟨count, total, 1, ((1 + opts.retry : Nat) : Int)⟩)
             ++ ": " ++ "No PDF file found")]
        warnCount := st.warnCount + 1 } := by
  rw [downloadArticleWithRetry, Nat.add_comm 1 opts.retry]
  simp only [retryLoop]
  rw [hnp]
  simp [downloadArticle, logInfo, logWarn, fmtMsg]

theorem removeCursor_fields (st : DLState) (dir : String) :
    (removeCursor st dir).1.errorCount = st.errorCount ∧
    (removeCursor st dir).1.warnCount = st.warnCount := by
  unfold removeCursor
  cases hl : fsLookup st.fs (getCursorPath dir) with
  | none => exact ⟨rfl, rfl⟩
  | some v => exact ⟨rfl, rfl⟩

theorem removeCursor_ok (st : DLState) (dir : String) (v : String)
    (h : fsLookup st.fs (getCursorPath dir) = some v) :
    (removeCursor st dir).2 = Except.ok () := by
  unfold removeCursor
  rw [h]

/-- C6: an attempt that finds no PDF link is a non-error, non-retry
outcome: the wrapper performs exactly one trial, logs exactly one warning
("No PDF file found") and no error, saves no file, touches neither the
filesystem nor the poll counter, and returns normally; moreover a journal
whose single article behaves this way still completes its pass without
error and its checkpoint file is removed afterwards — the item advanced
the checkpoint as processed. -/
theorem c6_no_pdf_skips (env : Env) (opts : Options) (jIdx : Nat) (artIdx : Int)
    (a : Article) (dir : String) (count total : Int) (st : DLState)
    (hnp : env.attempt jIdx artIdx 0 = AttemptSpec.noPdf)
    (env2 : Env) (opts2 : Options) (jIdx2 : Nat) (j : Journal) (st2 : DLState)
    (hab2 : ∀ k, env2.abortAt k = false)
    (hone : j.articles.length = 1)
    (hnp2 : env2.attempt jIdx2 0 0 = AttemptSpec.noPdf)
    (hcur2 : readCursor st2.fs (journalDir opts2 j) = some 0) :
    downloadArticleWithRetry env opts jIdx artIdx (some a) dir count total st =
      { st with
        trace := st.trace ++
          [Event.attemptStart dir artIdx 1,
           Event.info ((Progress.indicator
              ⟨count, total, 1, ((1 + opts.retry : Nat) : Int)⟩)
             ++ ": " ++ ("Loading " ++ a.url ++ "...")),
           Event.info ((Progress.indicator
              ⟨count, total, 1, ((1 + opts.retry : Nat) : Int)⟩)
             ++ ": " ++ "Looking for a PDF file..."),
           Event.warn ((Progress.indicator
              ⟨count, total, 1, ((1 + opts.retry : Nat) : Int)⟩)
             ++ ": " ++ "No PDF file found")]
        warnCount := st.warnCount + 1 } ∧
    (downloadArticleWithRetry env opts jIdx artIdx (some a) dir count total st).errorCount
      = st.errorCount ∧
    (downloadArticleWithRetry env opts jIdx artIdx (some a) dir count total st).files
      = st.files ∧
    (downloadArticleWithRetry env opts jIdx artIdx (some a) dir count total st).fs
      = st.fs ∧
    (downloadJournal env2 opts2 jIdx2 j st2).1.errorCount = st2.errorCount ∧
    (downloadJournal env2 opts2 jIdx2 j st2).2 = Except.ok () ∧
    fsLookup (downloadJournal env2 opts2 jIdx2 j st2).1.fs
      (getCursorPath (journalDir opts2 j)) = none := by
  have hmain := retry_noPdf_eq env opts jIdx artIdx a dir count total st hnp
  obtain ⟨a0, ha0⟩ := List.length_eq_one.mp hone
  have hart : articleAt j.articles 0 = some a0 := by
    simp [articleAt, ha0]
  have hRRe : countErrors (retryRun env2 opts2 jIdx2 0 (articleAt j.articles 0)
      (journalDir opts2 j) (0 + 1) ((j.articles.length : Nat) : Int)).trace = 0 := by
    simp only [retryRun]
    rw [← (retryRunAt_counts env2 opts2 jIdx2 0 (articleAt j.articles 0)
      (journalDir opts2 j) (0 + 1) ((j.articles.length : Nat) : Int)
      (1 + opts2.retry) (1 + opts2.retry) 0).2.1]
    show (downloadArticleWithRetry env2 opts2 jIdx2 0 (articleAt j.articles 0)
      (journalDir opts2 j) (0 + 1) ((j.articles.length : Nat) : Int)
      (DLState.init [])).errorCount = 0
    rw [hart, retry_noPdf_eq env2 opts2 jIdx2 0 a0 (journalDir opts2 j)
      (0 + 1) ((j.articles.length : Nat) : Int) (DLState.init []) hnp2]
    rfl
  refine ⟨hmain, by rw [hmain], by rw [hmain], by rw [hmain], ?_, ?_,
    downloadJournal_noAbort_cursor env2 opts2 jIdx2 j st2 hab2⟩
  · simp only [downloadJournal, logInfo]
    split
    next heq =>
      rw [hcur2] at heq
      simp at heq
    next c heq =>
      rw [hcur2] at heq
      simp only [Option.some.injEq] at heq
      subst heq
      rw [journalLoop_noAbort env2 opts2 jIdx2 j.articles (journalDir opts2 j)
        j.articles.length hab2]
      have hrem : (((j.articles.length : Nat) : Int) - 0).toNat = 1 := by
        rw [hone]
        decide
      rw [hrem]
      rw [(removeCursor_fields _ _).1]
      rw [show jlBlocks env2 opts2 jIdx2 j.articles (journalDir opts2 j)
          j.articles.length 0 1 =
        Event.cursorWrite (journalDir opts2 j) 0 :: Event.abortPoll false ::
          (retryDelta env2 opts2 jIdx2 0 (articleAt j.articles 0) (journalDir opts2 j)
            (0 + 1) ((j.articles.length : Nat) : Int) ++ []) from rfl]
      rw [countErrors_cons, countErrors_cons, countErrors_append]
      simp only [retryDelta] at *
      rw [hRRe]
      simp [eventIsError, countErrors_nil]
  · simp only [downloadJournal, logInfo]
    split
    next heq =>
      rw [hcur2] at heq
      simp at heq
    next c heq =>
      rw [hcur2] at heq
      simp only [Option.some.injEq] at heq
      subst heq
      rw [journalLoop_noAbort env2 opts2 jIdx2 j.articles (journalDir opts2 j)
        j.articles.length hab2]
      have hrem : (((j.articles.length : Nat) : Int) - 0).toNat = 1 := by
        rw [hone]
        decide
      rw [hrem]
      refine removeCursor_ok _ _ (Int.repr (0 + 1 - 1)) ?_
      simp only [if_neg (by omega : ¬ (1 : Nat) = 0)]
      exact fsLookup_fsWrite _ _ _

theorem c6_no_pdf_skips_witness :
    (downloadJournal ⟨none, none, none, id, fun _ _ _ => AttemptSpec.noPdf, fun _ => false⟩
      ⟨0, 0, 0, "o"⟩ 0 ⟨"n", "d", "v", "i", [⟨"t", "u"⟩]⟩ (DLState.init [])).1.errorCount = 0 ∧
    (downloadJournal ⟨none, none, none, id, fun _ _ _ => AttemptSpec.noPdf, fun _ => false⟩
      ⟨0, 0, 0, "o"⟩ 0 ⟨"n", "d", "v", "i", [⟨"t", "u"⟩]⟩ (DLState.init [])).2 = Except.ok () ∧
    fsLookup (downloadJournal ⟨none, none, none, id, fun _ _ _ => AttemptSpec.noPdf, fun _ => false⟩
      ⟨0, 0, 0, "o"⟩ 0 ⟨"n", "d", "v", "i", [⟨"t", "u"⟩]⟩ (DLState.init [])).1.fs
      (getCursorPath (journalDir ⟨0, 0, 0, "o"⟩ ⟨"n", "d", "v", "i", [⟨"t", "u"⟩]⟩)) = none ∧
    (downloadArticleWithRetry ⟨none, none, none, id, fun _ _ _ => AttemptSpec.noPdf, fun _ => false⟩
      ⟨0, 0, 0, "o"⟩ 0 0 (some ⟨"t", "u"⟩) "D" 1 1 (DLState.init [])).warnCount = 1 := by
  have h := c6_no_pdf_skips
    ⟨none, none, none, id, fun _ _ _ => AttemptSpec.noPdf, fun _ => false⟩
    ⟨0, 0, 0, "o"⟩ 0 0 ⟨"t", "u"⟩ "D" 1 1 (DLState.init []) rfl
    ⟨none, none, none, id, fun _ _ _ => AttemptSpec.noPdf, fun _ => false⟩
    ⟨0, 0, 0, "o"⟩ 0 ⟨"n", "d", "v", "i", [⟨"t", "u"⟩]⟩ (DLState.init [])
    (fun k => rfl) rfl rfl (by decide)
  exact ⟨h.2.2.2.2.1, h.2.2.2.2.2.1, h.2.2.2.2.2.2, by rw [h.1]; rfl⟩

theorem downloadJournal_empty (env : Env) (opts : Options) (jIdx : Nat) (j : Journal)
    (st : DLState) (harts : j.articles = [])
    (hnone : fsLookup st.fs (getCursorPath (journalDir opts j)) = none) :
    downloadJournal env opts jIdx j st =
      (logInfo st ("mkdir -p " ++ journalDir opts j ++ "...") none,
       Except.error ("ENOENT: no such file or directory, unlink "
         ++ getCursorPath (journalDir opts j))) := by
  simp only [downloadJournal, logInfo]
  split
  next heq =>
    exfalso
    simp [readCursor, hnone] at heq
  next c heq =>
    simp [readCursor, hnone] at heq
    subst heq
    have hrem : (((j.articles.length : Nat) : Int) - 0).toNat = 0 := by
      rw [harts]
      decide
    rw [hrem]
    simp only [journalLoop]
    simp only [removeCursor]
    rw [show fsLookup ({ st with trace := st.trace ++
        [Event.info (fmtMsg none ("mkdir -p " ++ journalDir opts j ++ "..."))] }
        : DLState).fs (getCursorPath (journalDir opts j)) = none from hnone]
  all_goals rfl

/-- C10: a journal with zero articles and no pre-existing cursor file makes
`downloadJournal_` throw ENOENT from the checkpoint-removal unlink; the
journals loop stops there (its result does not depend on the remaining
journals), the catch in `downloadJournals_` records exactly one error, and
a run whose batch starts with such a journal exits with status 1 while
logging no warning — even though no article was ever attempted. -/
theorem c10_empty_journal_enoent (env : Env) (opts : Options) (jIdx : Nat) (j : Journal)
    (rest : List Journal) (st : DLState)
    (harts : j.articles = [])
    (hnone : fsLookup st.fs (getCursorPath (journalDir opts j)) = none)
    (env2 : Env) (fs2 : List (String × String))
    (hl2 : env2.launchError = none) (hlog2 : env2.loginError = none)
    (hnone2 : fsLookup fs2 (getCursorPath (journalDir opts j)) = none) :
    downloadJournal env opts jIdx j st =
      (logInfo st ("mkdir -p " ++ journalDir opts j ++ "...") none,
       Except.error ("ENOENT: no such file or directory, unlink "
         ++ getCursorPath (journalDir opts j))) ∧
    downloadJournalsLoop env opts jIdx (j :: rest) st =
      (logInfo st ("mkdir -p " ++ journalDir opts j ++ "...") none,
       Except.error ("ENOENT: no such file or directory, unlink "
         ++ getCursorPath (journalDir opts j))) ∧
    (downloadJournals env opts (j :: rest) st).errorCount = st.errorCount + 1 ∧
    (downloadJournals env opts (j :: rest) st).warnCount = st.warnCount ∧
    (download env2 opts (j :: rest) fs2).2 = 1 ∧
    (download env2 opts (j :: rest) fs2).1.warnCount = 0 := by
  have h1 := downloadJournal_empty env opts jIdx j st harts hnone
  have h2 : downloadJournalsLoop env opts jIdx (j :: rest) st =
      (logInfo st ("mkdir -p " ++ journalDir opts j ++ "...") none,
       Except.error ("ENOENT: no such file or directory, unlink "
         ++ getCursorPath (journalDir opts j))) := by
    simp only [downloadJournalsLoop]
    rw [h1]
  have hJgen : ∀ st0 : DLState,
      fsLookup st0.fs (getCursorPath (journalDir opts j)) = none →
      ∀ env0 : Env,
      (downloadJournals env0 opts (j :: rest) st0).errorCount = st0.errorCount + 1 ∧
      (downloadJournals env0 opts (j :: rest) st0).warnCount = st0.warnCount := by
    intro st0 hn0 env0
    have h1b := downloadJournal_empty env0 opts 0 j st0 harts hn0
    have h2b : downloadJournalsLoop env0 opts 0 (j :: rest) st0 =
        (logInfo st0 ("mkdir -p " ++ journalDir opts j ++ "...") none,
         Except.error ("ENOENT: no such file or directory, unlink "
           ++ getCursorPath (journalDir opts j))) := by
      simp only [downloadJournalsLoop]
      rw [h1b]
    simp only [downloadJournals]
    rw [h2b]
    simp [logError, logInfo]
  obtain ⟨hje, hjw⟩ := hJgen st hnone env
  refine ⟨h1, h2, hje, hjw, ?_, ?_⟩
  · obtain ⟨hE, hW⟩ := hJgen
      ⟨0, 0, 0, fs2, [], [Event.info "Trying to login to www.nature.com..."]⟩ hnone2 env2
    cases hlo : env2.logoutError with
    | some msg =>
      simp [download, hl2, hlog2, hlo, logInfo, logError, fmtMsg, DLState.init,
        List.nil_append, hE]
    | none =>
      simp [download, hl2, hlog2, hlo, logInfo, logError, fmtMsg, DLState.init,
        List.nil_append, hE]
  · obtain ⟨hE, hW⟩ := hJgen
      ⟨0, 0, 0, fs2, [], [Event.info "Trying to login to www.nature.com..."]⟩ hnone2 env2
    cases hlo : env2.logoutError with
    | some msg =>
      simp [download, hl2, hlog2, hlo, logInfo, logError, fmtMsg, DLState.init,
        List.nil_append, hW]
    | none =>
      simp [download, hl2, hlog2, hlo, logInfo, logError, fmtMsg, DLState.init,
        List.nil_append, hW]

theorem c10_empty_journal_enoent_witness :
    (download ⟨none, none, none, id, fun _ _ _ => AttemptSpec.ok "u", fun _ => false⟩
      ⟨0, 0, 0, "o"⟩ [⟨"n", "d", "v", "i", []⟩] []).2 = 1 ∧
    (download ⟨none, none, none, id, fun _ _ _ => AttemptSpec.ok "u", fun _ => false⟩
      ⟨0, 0, 0, "o"⟩ [⟨"n", "d", "v", "i", []⟩] []).1.warnCount = 0 ∧
    (downloadJournals ⟨none, none, none, id, fun _ _ _ => AttemptSpec.ok "u", fun _ => false⟩
      ⟨0, 0, 0, "o"⟩ [⟨"n", "d", "v", "i", []⟩] (DLState.init [])).errorCount = 1 := by
  have h := c10_empty_journal_enoent
    ⟨none, none, none, id, fun _ _ _ => AttemptSpec.ok "u", fun _ => false⟩
    ⟨0, 0, 0, "o"⟩ 0 ⟨"n", "d", "v", "i", []⟩ [] (DLState.init []) rfl rfl
    ⟨none, none, none, id, fun _ _ _ => AttemptSpec.ok "u", fun _ => false⟩
    [] rfl rfl rfl
  exact ⟨h.2.2.2.2.1, h.2.2.2.2.2, h.2.2.1⟩

theorem flatMap_write_before (dir : String) (B : Nat → List Event) :
    ∀ (l : List Nat),
    (∀ k, ∀ (d0 : String) (idx : Int) (tr : Nat),
      Event.attemptStart d0 idx tr ∈ B k → idx = (k : Int)) →
    ∀ (n : Nat) (d0 : String) (idx : Int) (tr : Nat),
    Event.attemptStart d0 idx tr ∈
      (l.flatMap (fun k => Event.cursorWrite dir (k : Int) :: B k)).take n →
    Event.cursorWrite dir idx ∈
      (l.flatMap (fun k => Event.cursorWrite dir (k : Int) :: B k)).take n := by
  intro l
  induction l with
  | nil =>
    intro hB n d0 idx tr h
    simp at h
  | cons k l ih =>
    intro hB n d0 idx tr h
    cases n with
    | zero => simp at h
    | succ m =>
      rw [List.flatMap_cons, List.cons_append, List.take_succ_cons,
        List.take_append_eq_append_take] at h ⊢
      rcases List.mem_cons.mp h with h0 | h1
      · simp at h0
      · rcases List.mem_append.mp h1 with hA | hA
        · have hk := hB k d0 idx tr (List.take_subset _ _ hA)
          subst hk
          exact List.mem_cons_self _ _
        · have := ih hB (m - (B k).length) d0 idx tr hA
          exact List.mem_cons_of_mem _ (List.mem_append_right _ this)

/-- C2: for a journal with `N` articles and stored checkpoint `c` with
`0 ≤ c ≤ N`, an abort-free pass iterates the articles exactly at indices
`c, c+1, ..., N-1` in array order — the trace is the mkdir line, then one
block per index `k` in that order, each block opening with the checkpoint
write of `k` before that article's attempts, then the checkpoint removal —
attempts only ever carry the index of their own block, every index in
`[c, N)` is attempted and no index outside it (in particular never
`0..c-1`), and in every trace prefix an attempt for index `i` is preceded
by the checkpoint write of `i` (the write is durable before the attempt
begins, giving at-least-once resumption for the in-flight item). -/
theorem c2_resume_iteration (env : Env) (opts : Options) (jIdx : Nat) (j : Journal)
    (st : DLState) (cn N : Nat)
    (hN : j.articles.length = N)
    (hab : ∀ k, env.abortAt k = false)
    (hcur : readCursor st.fs (journalDir opts j) = some ((cn : Nat) : Int))
    (hcN : cn ≤ N) :
    (downloadJournal env opts jIdx j st).1.trace =
      st.trace ++ [Event.info ("mkdir -p " ++ journalDir opts j ++ "...")] ++
        (List.range' cn (N - cn)).flatMap (fun k =>
          Event.cursorWrite (journalDir opts j) (k : Int) ::
            (Event.abortPoll false ::
              retryDelta env opts jIdx (k : Int) (articleAt j.articles (k : Int))
                (journalDir opts j) ((k : Int) + 1) (N : Int))) ++
        (if cn = N ∧ fsLookup st.fs (getCursorPath (journalDir opts j)) = none
         then [] else [Event.cursorRemove (journalDir opts j)]) ∧
    (∀ (d0 : String) (idx : Int) (tr k : Nat),
      Event.attemptStart d0 idx tr ∈
        Event.abortPoll false ::
          retryDelta env opts jIdx (k : Int) (articleAt j.articles (k : Int))
            (journalDir opts j) ((k : Int) + 1) (N : Int) →
      d0 = journalDir opts j ∧ idx = (k : Int)) ∧
    (∀ k : Nat, Event.attemptStart (journalDir opts j) (k : Int) 1 ∈
        Event.abortPoll false ::
          retryDelta env opts jIdx (k : Int) (articleAt j.articles (k : Int))
            (journalDir opts j) ((k : Int) + 1) (N : Int)) ∧
    (∀ (d0 : String) (idx : Int) (tr : Nat),
      Event.attemptStart d0 idx tr ∈
        (List.range' cn (N - cn)).flatMap (fun k =>
          Event.cursorWrite (journalDir opts j) (k : Int) ::
            (Event.abortPoll false ::
              retryDelta env opts jIdx (k : Int) (articleAt j.articles (k : Int))
                (journalDir opts j) ((k : Int) + 1) (N : Int))) →
      d0 = journalDir opts j ∧ (cn : Int) ≤ idx ∧ idx < (N : Int)) ∧
    (∀ k : Nat, cn ≤ k → k < N →
      Event.attemptStart (journalDir opts j) (k : Int) 1 ∈
        (List.range' cn (N - cn)).flatMap (fun k =>
          Event.cursorWrite (journalDir opts j) (k : Int) ::
            (Event.abortPoll false ::
              retryDelta env opts jIdx (k : Int) (articleAt j.articles (k : Int))
                (journalDir opts j) ((k : Int) + 1) (N : Int)))) ∧
    (∀ (n : Nat) (d0 : String) (idx : Int) (tr : Nat),
      Event.attemptStart d0 idx tr ∈
        ((List.range' cn (N - cn)).flatMap (fun k =>
          Event.cursorWrite (journalDir opts j) (k : Int) ::
            (Event.abortPoll false ::
              retryDelta env opts jIdx (k : Int) (articleAt j.articles (k : Int))
                (journalDir opts j) ((k : Int) + 1) (N : Int)))).take n →
      Event.cursorWrite (journalDir opts j) idx ∈
        ((List.range' cn (N - cn)).flatMap (fun k =>
          Event.cursorWrite (journalDir opts j) (k : Int) ::
            (Event.abortPoll false ::
              retryDelta env opts jIdx (k : Int) (articleAt j.articles (k : Int))
                (journalDir opts j) ((k : Int) + 1) (N : Int)))).take n) := by
  subst hN
  have hblock : ∀ (d0 : String) (idx : Int) (tr k : Nat),
      Event.attemptStart d0 idx tr ∈
        Event.abortPoll false ::
          retryDelta env opts jIdx (k : Int) (articleAt j.articles (k : Int))
            (journalDir opts j) ((k : Int) + 1) ((j.articles.length : Nat) : Int) →
      d0 = journalDir opts j ∧ idx = (k : Int) := by
    intro d0 idx tr k h
    rcases List.mem_cons.mp h with h | h
    · simp at h
    · exact retryEventOk_attempt _ _ _ _ _
        (retryDelta_events env opts jIdx (k : Int) (articleAt j.articles (k : Int))
          (journalDir opts j) ((k : Int) + 1) ((j.articles.length : Nat) : Int) _ h)
  have hfirst : ∀ k : Nat, Event.attemptStart (journalDir opts j) (k : Int) 1 ∈
      Event.abortPoll false ::
        retryDelta env opts jIdx (k : Int) (articleAt j.articles (k : Int))
          (journalDir opts j) ((k : Int) + 1) ((j.articles.length : Nat) : Int) :=
    fun k => List.mem_cons_of_mem _ (retryDelta_first env opts jIdx (k : Int)
      (articleAt j.articles (k : Int)) (journalDir opts j) ((k : Int) + 1)
      ((j.articles.length : Nat) : Int))
  refine ⟨?_, hblock, hfirst, ?_, ?_, ?_⟩
  · simp only [downloadJournal, logInfo]
    split
    next heq =>
      rw [hcur] at heq
      simp at heq
    next c heq =>
      rw [hcur] at heq
      simp only [Option.some.injEq] at heq
      subst heq
      rw [journalLoop_noAbort env opts jIdx j.articles (journalDir opts j)
        j.articles.length hab]
      have hrem : (((j.articles.length : Nat) : Int) - ((cn : Nat) : Int)).toNat =
          j.articles.length - cn := by omega
      rw [hrem]
      rw [jlBlocks_flatMap env opts jIdx j.articles (journalDir opts j)
        j.articles.length (j.articles.length - cn) cn]
      by_cases hEnd : cn = j.articles.length
      · have hr0 : j.articles.length - cn = 0 := by omega
        rw [hr0]
        cases hfs0 : fsLookup st.fs (getCursorPath (journalDir opts j)) with
        | none => simp [removeCursor, hfs0, hEnd, fmtMsg]
        | some v => simp [removeCursor, hfs0, hEnd, fmtMsg, List.append_assoc]
      · have hr1 : ¬ (j.articles.length - cn = 0) := by omega
        simp [removeCursor, hr1, fsLookup_fsWrite, fmtMsg, List.append_assoc, hEnd]
  · intro d0 idx tr h
    obtain ⟨k, hk, hmem⟩ := List.mem_flatMap.mp h
    rcases List.mem_cons.mp hmem with h0 | h0
    · simp at h0
    · obtain ⟨hd, hidx⟩ := hblock d0 idx tr k h0
      obtain ⟨hk1, hk2⟩ := List.mem_range'_1.mp hk
      subst hidx
      exact ⟨hd, by exact_mod_cast hk1, by omega⟩
  · intro k hk1 hk2
    exact List.mem_flatMap.mpr ⟨k, List.mem_range'_1.mpr ⟨hk1, by omega⟩,
      List.mem_cons_of_mem _ (hfirst k)⟩
  · intro n d0 idx tr h
    exact flatMap_write_before (journalDir opts j)
      (fun k => Event.abortPoll false ::
        retryDelta env opts jIdx (k : Int) (articleAt j.articles (k : Int))
          (journalDir opts j) ((k : Int) + 1) ((j.articles.length : Nat) : Int))
      (List.range' cn (j.articles.length - cn))
      (fun k d0 idx tr hm => (hblock d0 idx tr k hm).2) n d0 idx tr h

theorem c2_resume_iteration_witness :
    Event.attemptStart
      (journalDir ⟨0, 0, 0, "o"⟩ ⟨"n", "d", "v", "i", [⟨"t1", "u1"⟩, ⟨"t2", "u2"⟩]⟩)
      ((1 : Nat) : Int) 1 ∈
    (List.range' 1 (2 - 1)).flatMap (fun k =>
      Event.cursorWrite
        (journalDir ⟨0, 0, 0, "o"⟩ ⟨"n", "d", "v", "i", [⟨"t1", "u1"⟩, ⟨"t2", "u2"⟩]⟩)
        (k : Int) ::
        (Event.abortPoll false ::
          retryDelta ⟨none, none, none, id, fun _ _ _ => AttemptSpec.ok "u", fun _ => false⟩
            ⟨0, 0, 0, "o"⟩ 0 (k : Int)
            (articleAt [⟨"t1", "u1"⟩, ⟨"t2", "u2"⟩] (k : Int))
            (journalDir ⟨0, 0, 0, "o"⟩ ⟨"n", "d", "v", "i", [⟨"t1", "u1"⟩, ⟨"t2", "u2"⟩]⟩)
            ((k : Int) + 1) ((2 : Nat) : Int))) := by
  have h := c2_resume_iteration
    ⟨none, none, none, id, fun _ _ _ => AttemptSpec.ok "u", fun _ => false⟩
    ⟨0, 0, 0, "o"⟩ 0 ⟨"n", "d", "v", "i", [⟨"t1", "u1"⟩, ⟨"t2", "u2"⟩]⟩
    (DLState.init [("o/n/d_v_i/cursor", "1")]) 1 2 rfl (fun _ => rfl)
    (by decide) (by decide)
  exact h.2.2.2.2.1 1 (by decide) (by decide)

theorem journalLoop_events (env : Env) (opts : Options) (jIdx : Nat)
    (articles : List Article) (dir : String) (total : Nat) :
    ∀ (rem : Nat) (i : Int) (st : DLState) (e : Event),
    e ∈ (journalLoop env opts jIdx articles dir total i rem st).1.trace →
    e ∈ st.trace ∨ jlEventOk dir e = true := by
  intro rem
  induction rem with
  | zero =>
    intro i st e h
    simp only [journalLoop] at h
    exact Or.inl h
  | succ rem ih =>
    intro i st e h
    simp only [journalLoop, writeCursor, pollAborted] at h
    by_cases hab : env.abortAt st.polls = true
    · rw [if_pos hab] at h
      simp only [List.append_assoc, List.mem_append, List.mem_singleton] at h
      rcases h with h | h | h
      · exact Or.inl h
      · subst h
        right
        simp [jlEventOk]
      · subst h
        right
        simp [jlEventOk]
    · rw [if_neg hab] at h
      rw [downloadArticleWithRetry_frame] at h
      rcases ih _ _ _ h with hmem | hok
      · simp only [mergeSt, List.append_assoc, List.mem_append, List.mem_singleton] at hmem
        rcases hmem with h | h | h | h
        · exact Or.inl h
        · subst h
          right
          simp [jlEventOk]
        · subst h
          right
          simp [jlEventOk]
        · exact Or.inr (retryOk_jlOk dir i e
            (retryDelta_events env opts jIdx i (articleAt articles i) dir (i + 1)
              (total : Int) e h))
      · exact Or.inr hok

/-- C4: the checkpoint file is gone exactly after a full, non-aborted pass
of the journal — whatever the per-article outcomes were; an aborted pass
always leaves the checkpoint file in place; and the article loop itself
never emits a checkpoint removal, so the removal after the loop is the
sole transition from checkpoint-present to checkpoint-absent. -/
theorem c4_checkpoint_removal (env : Env) (opts : Options) (jIdx : Nat) (j : Journal)
    (st : DLState) (hab : ∀ k, env.abortAt k = false)
    (env2 : Env) (opts2 : Options) (jIdx2 : Nat) (j2 : Journal) (st2 stR2 : DLState)
    (h2 : downloadJournal env2 opts2 jIdx2 j2 st2 = (stR2, Except.error "Aborted")) :
    fsLookup (downloadJournal env opts jIdx j st).1.fs
      (getCursorPath (journalDir opts j)) = none ∧
    (fsLookup stR2.fs (getCursorPath (journalDir opts2 j2))).isSome = true ∧
    (∀ (env3 : Env) (opts3 : Options) (jIdx3 : Nat) (articles3 : List Article)
      (dir3 : String) (total3 : Nat) (i3 : Int) (rem3 : Nat) (st3 : DLState) (d : String),
      Event.cursorRemove d ∈
        (journalLoop env3 opts3 jIdx3 articles3 dir3 total3 i3 rem3 st3).1.trace →
      Event.cursorRemove d ∈ st3.trace) := by
  refine ⟨downloadJournal_noAbort_cursor env opts jIdx j st hab, ?_, ?_⟩
  · obtain ⟨c, i2, hc, hle, hlook, d, htr, hatt, hlast⟩ :=
      downloadJournal_abort env2 opts2 jIdx2 j2 st2 stR2 h2
    rw [hlook]
    rfl
  · intro env3 opts3 jIdx3 articles3 dir3 total3 i3 rem3 st3 d h
    rcases journalLoop_events env3 opts3 jIdx3 articles3 dir3 total3 rem3 i3 st3 _ h with
      hmem | hok
    · exact hmem
    · simp [jlEventOk, eventBenign] at hok

theorem c4_checkpoint_removal_witness :
    fsLookup (downloadJournal
        ⟨none, none, none, id, fun _ _ _ => AttemptSpec.ok "u", fun _ => false⟩
        ⟨0, 0, 0, "o"⟩ 0 ⟨"n", "d", "v", "i", [⟨"t", "u"⟩]⟩ (DLState.init [])).1.fs
      (getCursorPath (journalDir ⟨0, 0, 0, "o"⟩ ⟨"n", "d", "v", "i", [⟨"t", "u"⟩]⟩))
      = none ∧
    (fsLookup (downloadJournal
        ⟨none, none, none, id, fun _ _ _ => AttemptSpec.ok "u", fun _ => true⟩
        ⟨0, 0, 0, "o"⟩ 0 ⟨"n", "d", "v", "i", [⟨"t", "u"⟩]⟩ (DLState.init [])).1.fs
      (getCursorPath (journalDir ⟨0, 0, 0, "o"⟩ ⟨"n", "d", "v", "i", [⟨"t", "u"⟩]⟩))).isSome
      = true := by
  have h := c4_checkpoint_removal
    ⟨none, none, none, id, fun _ _ _ => AttemptSpec.ok "u", fun _ => false⟩
    ⟨0, 0, 0, "o"⟩ 0 ⟨"n", "d", "v", "i", [⟨"t", "u"⟩]⟩ (DLState.init [])
    (fun _ => rfl)
    ⟨none, none, none, id, fun _ _ _ => AttemptSpec.ok "u", fun _ => true⟩
    ⟨0, 0, 0, "o"⟩ 0 ⟨"n", "d", "v", "i", [⟨"t", "u"⟩]⟩ (DLState.init [])
    (downloadJournal
        ⟨none, none, none, id, fun _ _ _ => AttemptSpec.ok "u", fun _ => true⟩
        ⟨0, 0, 0, "o"⟩ 0 ⟨"n", "d", "v", "i", [⟨"t", "u"⟩]⟩ (DLState.init [])).1
    rfl
  exact ⟨h.1, h.2.1⟩

/-- C5 counterexample: abort raised before the run (the abort flag reads
true at every poll), but with an empty batch no per-article poll ever
happens, no error is recorded, and the run exits 0 — not non-zero as the
claim states for every abort raised before or during processing. -/
theorem c5_counterexample_unobserved_abort :
    (download ⟨none, none, none, id, fun _ _ _ => AttemptSpec.ok "u", fun _ => true⟩
      ⟨0, 0, 0, "o"⟩ [] []).2 = 0 ∧
    (download ⟨none, none, none, id, fun _ _ _ => AttemptSpec.ok "u", fun _ => true⟩
      ⟨0, 0, 0, "o"⟩ [] []).1.errorCount = 0 := by
  exact ⟨rfl, rfl⟩

/-- C5 (amended): when the raised abort flag is actually observed at a
poll point — abort raised before the run and the first journal has an
article iteration to run (checkpoint below the article count) — the run
terminates with exit status 1; and whenever the browser launch succeeds
(abort or not) the teardown `browser.close()` happens exactly once. -/
theorem c5_abort_observed (env : Env) (opts : Options) (j : Journal)
    (rest : List Journal) (fs0 : List (String × String)) (cn : Nat)
    (hl : env.launchError = none) (hlog : env.loginError = none)
    (habt : ∀ k, env.abortAt k = true)
    (hcur : readCursor fs0 (journalDir opts j) = some ((cn : Nat) : Int))
    (hlt : cn < j.articles.length)
    (env2 : Env) (opts2 : Options) (journals2 : List Journal)
    (fs2 : List (String × String)) (hl2 : env2.launchError = none) :
    (download env opts (j :: rest) fs0).2 = 1 ∧
    countCloses (download env opts (j :: rest) fs0).1.trace = 1 ∧
    countCloses (download env2 opts2 journals2 fs2).1.trace = 1 := by
  have hDJ : ∀ (jIdx : Nat) (st0 : DLState),
      readCursor st0.fs (journalDir opts j) = some ((cn : Nat) : Int) →
      ∃ s : DLState, downloadJournal env opts jIdx j st0 = (s, Except.error "Aborted") ∧
        s.errorCount = st0.errorCount ∧ s.warnCount = st0.warnCount := by
    intro jIdx st0 h0
    simp only [downloadJournal, logInfo]
    split
    next heq =>
      rw [h0] at heq
      simp at heq
    next c heq =>
      rw [h0] at heq
      simp only [Option.some.injEq] at heq
      subst heq
      have hrem : (((j.articles.length : Nat) : Int) - ((cn : Nat) : Int)).toNat =
          Nat.succ (j.articles.length - cn - 1) := by omega
      rw [hrem]
      simp only [journalLoop, writeCursor, pollAborted, habt, if_true]
      exact ⟨_, rfl, rfl, rfl⟩
  have hE : (downloadJournals env opts (j :: rest)
      ⟨0, 0, 0, fs0, [], [Event.info "Trying to login to www.nature.com..."]⟩).errorCount
      = 1 := by
    obtain ⟨s, hs, hse, hsw⟩ := hDJ 0
      ⟨0, 0, 0, fs0, [], [Event.info "Trying to login to www.nature.com..."]⟩ hcur
    simp only [downloadJournals, downloadJournalsLoop]
    rw [hs]
    simp [logError, hse]
  refine ⟨?_, download_closes env opts (j :: rest) fs0 hl,
    download_closes env2 opts2 journals2 fs2 hl2⟩
  cases hlo : env.logoutError with
  | some msg =>
    simp [download, hl, hlog, hlo, logInfo, logError, fmtMsg, DLState.init,
      List.nil_append, hE]
  | none =>
    simp [download, hl, hlog, hlo, logInfo, logError, fmtMsg, DLState.init,
      List.nil_append, hE]

theorem c5_abort_observed_witness :
    (download ⟨none, none, none, id, fun _ _ _ => AttemptSpec.ok "u", fun _ => true⟩
      ⟨0, 0, 0, "o"⟩ [⟨"n", "d", "v", "i", [⟨"t", "u"⟩]⟩] []).2 = 1 ∧
    countCloses (download ⟨none, none, none, id, fun _ _ _ => AttemptSpec.ok "u",
      fun _ => true⟩ ⟨0, 0, 0, "o"⟩ [⟨"n", "d", "v", "i", [⟨"t", "u"⟩]⟩] []).1.trace = 1 := by
  have h := c5_abort_observed
    ⟨none, none, none, id, fun _ _ _ => AttemptSpec.ok "u", fun _ => true⟩
    ⟨0, 0, 0, "o"⟩ ⟨"n", "d", "v", "i", [⟨"t", "u"⟩]⟩ [] [] 0 rfl rfl (fun _ => rfl)
    (by decide) (by decide)
    ⟨none, none, none, id, fun _ _ _ => AttemptSpec.ok "u", fun _ => true⟩
    ⟨0, 0, 0, "o"⟩ [] [] rfl
  exact ⟨h.1, h.2.1⟩

/-- C8 counterexample: a two-article journal aborted at the second poll.
The checkpoint is written at the top of each loop iteration, before the
abort check and before the attempt, so at the abort the cursor file holds
"1" (the index of the article whose attempt was never initiated) while the
last article whose attempt was actually initiated is index 0 — the stored
value is one ahead of the last initiated attempt, contradicting the claim. -/
theorem c8_counterexample_cursor_ahead :
    fsLookup (downloadJournal
        ⟨none, none, none, id, fun _ _ _ => AttemptSpec.ok "u", fun k => decide (1 ≤ k)⟩
        ⟨0, 0, 0, "o"⟩ 0 ⟨"n", "d", "v", "i", [⟨"t", "u"⟩, ⟨"s", "w"⟩]⟩
        (DLState.init [])).1.fs
      (getCursorPath (journalDir ⟨0, 0, 0, "o"⟩
        ⟨"n", "d", "v", "i", [⟨"t", "u"⟩, ⟨"s", "w"⟩]⟩)) = some "1" ∧
    (downloadJournal
        ⟨none, none, none, id, fun _ _ _ => AttemptSpec.ok "u", fun k => decide (1 ≤ k)⟩
        ⟨0, 0, 0, "o"⟩ 0 ⟨"n", "d", "v", "i", [⟨"t", "u"⟩, ⟨"s", "w"⟩]⟩
        (DLState.init [])).2 = Except.error "Aborted" ∧
    attemptIdxs (downloadJournal
        ⟨none, none, none, id, fun _ _ _ => AttemptSpec.ok "u", fun k => decide (1 ≤ k)⟩
        ⟨0, 0, 0, "o"⟩ 0 ⟨"n", "d", "v", "i", [⟨"t", "u"⟩, ⟨"s", "w"⟩]⟩
        (DLState.init [])).1.trace = [0] ∧
    ("1" : String) ≠ Int.repr 0 := by
  refine ⟨rfl, rfl, rfl, by decide⟩

/-- C8 (amended): for every journal run that terminates by abort, the
checkpoint file exists and stores the decimal rendering of an index i2 at
or above the starting cursor; every attempt initiated during the run is
for an index strictly below i2, and either no attempt was initiated in
this run (i2 equals the starting cursor) or the last initiated attempt is
for index i2 - 1 — i.e. the stored value is the index of the first
unattempted article, one past the last initiated attempt. -/
theorem c8_abort_cursor (env : Env) (opts : Options) (jIdx : Nat)
    (j : Journal) (st stR : DLState)
    (h : downloadJournal env opts jIdx j st = (stR, Except.error "Aborted")) :
    ∃ c i2 : Int, readCursor st.fs (journalDir opts j) = some c ∧ c ≤ i2 ∧
      fsLookup stR.fs (getCursorPath (journalDir opts j)) = some (Int.repr i2) ∧
      ∃ d : List Event, stR.trace = st.trace ++ d ∧
        (∀ (d0 : String) (idx : Int) (tr : Nat),
          Event.attemptStart d0 idx tr ∈ d →
            d0 = journalDir opts j ∧ c ≤ idx ∧ idx < i2) ∧
        (i2 = c ∨ ∃ tr : Nat, Event.attemptStart (journalDir opts j) (i2 - 1) tr ∈ d) :=
  downloadJournal_abort env opts jIdx j st stR h

theorem c8_abort_cursor_witness :
    ∃ c i2 : Int,
      readCursor (DLState.init ([] : List (String × String))).fs
        (journalDir ⟨0, 0, 0, "o"⟩ ⟨"n", "d", "v", "i", [⟨"t", "u"⟩, ⟨"s", "w"⟩]⟩)
        = some c ∧ c ≤ i2 ∧
      fsLookup (downloadJournal
          ⟨none, none, none, id, fun _ _ _ => AttemptSpec.ok "u", fun k => decide (1 ≤ k)⟩
          ⟨0, 0, 0, "o"⟩ 0 ⟨"n", "d", "v", "i", [⟨"t", "u"⟩, ⟨"s", "w"⟩]⟩
          (DLState.init [])).1.fs
        (getCursorPath (journalDir ⟨0, 0, 0, "o"⟩
          ⟨"n", "d", "v", "i", [⟨"t", "u"⟩, ⟨"s", "w"⟩]⟩)) = some (Int.repr i2) ∧
      ∃ d : List Event,
        (downloadJournal
          ⟨none, none, none, id, fun _ _ _ => AttemptSpec.ok "u", fun k => decide (1 ≤ k)⟩
          ⟨0, 0, 0, "o"⟩ 0 ⟨"n", "d", "v", "i", [⟨"t", "u"⟩, ⟨"s", "w"⟩]⟩
          (DLState.init [])).1.trace = (DLState.init ([] : List (String × String))).trace ++ d ∧
        (∀ (d0 : String) (idx : Int) (tr : Nat),
          Event.attemptStart d0 idx tr ∈ d →
            d0 = journalDir ⟨0, 0, 0, "o"⟩ ⟨"n", "d", "v", "i", [⟨"t", "u"⟩, ⟨"s", "w"⟩]⟩ ∧
            c ≤ idx ∧ idx < i2) ∧
        (i2 = c ∨ ∃ tr : Nat, Event.attemptStart
          (journalDir ⟨0, 0, 0, "o"⟩ ⟨"n", "d", "v", "i", [⟨"t", "u"⟩, ⟨"s", "w"⟩]⟩)
          (i2 - 1) tr ∈ d) :=
  c8_abort_cursor
    ⟨none, none, none, id, fun _ _ _ => AttemptSpec.ok "u", fun k => decide (1 ≤ k)⟩
    ⟨0, 0, 0, "o"⟩ 0 ⟨"n", "d", "v", "i", [⟨"t", "u"⟩, ⟨"s", "w"⟩]⟩
    (DLState.init []) _ rfl
